import Mathlib

/-!
Verification development for the refrigeration-performance core
(`calculation_engine.py`, `calculation_orchestrator.py`).

The numeric code is embedded shallowly: Python floats become `ℚ`
(arithmetic is treated as exact), the CoolProp property evaluator
becomes an explicit oracle parameter returning `Except String ℚ`,
pandas rows and dicts become association lists, and Python `try/except`
becomes the `Except` monad.  Values read from a row or a dict are
`Option ℚ`, `none` standing for an absent value or Python `None`.
-/

namespace DDT

/-- Association-list lookup (first match), mirroring Python `dict.get`. -/
def alookup {α : Type} (k : String) : List (String × α) → Option α
  | [] => none
  | (k', v) :: rest => if k' = k then some v else alookup k rest

/-- The keys of an association list. -/
def akeys {α : Type} (l : List (String × α)) : List String := l.map Prod.fst

/-- The values of an association list. -/
def avalues {α : Type} (l : List (String × α)) : List α := l.map Prod.snd

/-- Python truthiness for an optional float: `None` and `0` are falsy;
a nonzero value is truthy (and its value is used).  Used by
`compute_8_point_cycle`, whose guards are `if T_3a:` etc. -/
def optTruthy (v : Option ℚ) : Option ℚ :=
  match v with
  | none => none
  | some x => if x = 0 then none else some x

/-- A CoolProp call `PropsSI(out, name1, val1, name2, val2, fluid)`;
it may fail (invalid state), hence `Except`. -/
def Oracle : Type := String → String → ℚ → String → ℚ → String → Except String ℚ

/-- A value stored in a result record: a number, a string, or Python `None`. -/
inductive Val where
  | num (q : ℚ)
  | str (s : String)
  | null
  deriving DecidableEq

/-- One named output field of the row transform. -/
abbrev Field := String × Val

/-- One input row: channel name to numeric value. -/
abbrev Row := List (String × ℚ)

-- ===== Unit conversions (calculation_engine.py helpers) =====

/-- `f_to_k`: Fahrenheit to Kelvin. -/
def f_to_k (t : ℚ) : ℚ := (t + 459.67) * 5 / 9

/-- `psig_to_pa`: gauge PSI to absolute Pascals. -/
def psig_to_pa (p : ℚ) : ℚ := (p + 14.7) * 6894.76

/-- `hz_to_rph`: Hz to revolutions per hour. -/
def hz_to_rph (hz : ℚ) : ℚ := hz * 3600

/-- `ft3_to_m3`: cubic feet to cubic meters. -/
def ft3_to_m3 (v : ℚ) : ℚ := v * 0.0283168

-- ===== Calibration stage: calculate_volumetric_efficiency =====

/-- The five rated nameplate inputs (`rated_inputs` dict).  A field is
`none` when the key is absent or holds Python `None`. -/
structure RatedInputs where
  m_dot_rated_lbhr : Option ℚ
  hz_rated : Option ℚ
  disp_ft3 : Option ℚ
  rated_evap_temp_f : Option ℚ
  rated_return_gas_temp_f : Option ℚ
  deriving DecidableEq

/-- Python test `not v or v == 0` applied to a value read with default 0:
true when the value is absent, `None`, or zero. -/
def isMissing (v : Option ℚ) : Bool :=
  match v with
  | none => true
  | some x => x = 0

/-- An enumeration of the five rated fields, in the order the source
checks them. -/
inductive RatedField where
  | massFlow
  | speed
  | disp
  | evapT
  | returnT
  deriving DecidableEq

/-- Display name used in the missing-inputs warning for each rated field. -/
def ratedFieldName : RatedField → String
  | .massFlow => "Rated Mass Flow Rate"
  | .speed => "Rated Compressor Speed"
  | .disp => "Compressor Displacement"
  | .evapT => "Rated Evaporator Temperature"
  | .returnT => "Rated Return Gas Temperature"

/-- The stored value of one rated field. -/
def ratedFieldVal (ri : RatedInputs) : RatedField → Option ℚ
  | .massFlow => ri.m_dot_rated_lbhr
  | .speed => ri.hz_rated
  | .disp => ri.disp_ft3
  | .evapT => ri.rated_evap_temp_f
  | .returnT => ri.rated_return_gas_temp_f

/-- The `missing` list built by `calculate_volumetric_efficiency`,
in source order. -/
def missingList (ri : RatedInputs) : List String :=
  (if isMissing ri.m_dot_rated_lbhr then ["Rated Mass Flow Rate"] else []) ++
  (if isMissing ri.hz_rated then ["Rated Compressor Speed"] else []) ++
  (if isMissing ri.disp_ft3 then ["Compressor Displacement"] else []) ++
  (if isMissing ri.rated_evap_temp_f then ["Rated Evaporator Temperature"] else []) ++
  (if isMissing ri.rated_return_gas_temp_f then ["Rated Return Gas Temperature"] else [])

/-- Result record of the calibration stage. -/
structure EtaResult where
  eta_vol : ℚ
  method : String
  warnings : List String
  m_dot_th_lb_hr : Option ℚ := none
  deriving DecidableEq

/-- The fixed default-path record for missing rated inputs. -/
def etaDefaultMissing (missing : List String) : EtaResult :=
  { eta_vol := 0.85
    method := "default"
    warnings :=
      ["Missing rated inputs: " ++ String.intercalate ", " missing,
       "Using default volumetric efficiency (0.85)",
       "Mass flow and cooling capacity calculations will be approximate"] }

/-- `calculate_volumetric_efficiency` (calculation_engine.py:572-685):
one-time volumetric-efficiency calibration with graceful degradation. -/
def calculate_volumetric_efficiency (o : Oracle) (ri : RatedInputs)
    (refrigerant : String) : EtaResult :=
  let m_dot_rated_lb_hr := ri.m_dot_rated_lbhr.getD 0
  let rated_evap_f := ri.rated_evap_temp_f.getD 0
  let rated_return_f := ri.rated_return_gas_temp_f.getD 0
  let rated_disp_ft3 := ri.disp_ft3.getD 0
  let rated_hz := ri.hz_rated.getD 0
  let missing := missingList ri
  if missing ≠ [] then etaDefaultMissing missing
  else
    let attempt : Except String EtaResult := do
      let rated_evap_k := f_to_k rated_evap_f
      let P_rated_sat ← o "P" "T" rated_evap_k "Q" 0 refrigerant
      let rated_return_k := f_to_k rated_return_f
      let dens_rated_kg_m3 ← o "D" "T" rated_return_k "P" P_rated_sat refrigerant
      let dens_rated_lb_ft3 := dens_rated_kg_m3 * 0.062428
      let rph := hz_to_rph rated_hz
      let m_dot_th_lb_hr := dens_rated_lb_ft3 * rph * rated_disp_ft3
      if m_dot_th_lb_hr = 0 then
        pure { eta_vol := 0.85
               method := "default"
               warnings :=
                 ["Theoretical mass flow is zero - cannot calculate eta_vol",
                  "Using default volumetric efficiency (0.85)"] }
      else
        pure { eta_vol := m_dot_rated_lb_hr / m_dot_th_lb_hr
               method := "calculated"
               warnings := []
               m_dot_th_lb_hr := some m_dot_th_lb_hr }
    match attempt with
    | .ok r => r
    | .error e =>
        { eta_vol := 0.85
          method := "default"
          warnings :=
            ["Error calculating eta_vol: " ++ e,
             "Using default volumetric efficiency (0.85)"] }

-- ===== Row transform stage: calculate_row_performance =====

/-- `get_val` inside `calculate_row_performance`: role key → mapped
column → row value; `none` at either step yields `none`. -/
def get_val (sensor_map : List (String × String)) (row : Row)
    (key : String) : Option ℚ :=
  match alookup key sensor_map with
  | none => none
  | some col => alookup col row

/-- All sensor values the row transform reads (step 1 of the source). -/
structure RowVals where
  p_suc : Option ℚ
  p_disch : Option ℚ
  rpm : Option ℚ
  t_2a_lh : Option ℚ
  t_4b_lh : Option ℚ
  t_2a_ctr : Option ℚ
  t_4b_ctr : Option ℚ
  t_2a_rh : Option ℚ
  t_4b_rh : Option ℚ
  t_2b : Option ℚ
  t_3a : Option ℚ
  t_3b : Option ℚ
  t_4a : Option ℚ
  deriving DecidableEq

/-- Reading every sensor role of the row transform from one row. -/
def readVals (sensor_map : List (String × String)) (row : Row) : RowVals :=
  { p_suc := get_val sensor_map row "P_suc"
    p_disch := get_val sensor_map row "P_disch"
    rpm := get_val sensor_map row "RPM"
    t_2a_lh := get_val sensor_map row "T_2a-LH"
    t_4b_lh := get_val sensor_map row "T_4b-lh"
    t_2a_ctr := get_val sensor_map row "T_2a-ctr"
    t_4b_ctr := get_val sensor_map row "T_4b-ctr"
    t_2a_rh := get_val sensor_map row "T_2a-RH"
    t_4b_rh := get_val sensor_map row "T_4b-rh"
    t_2b := get_val sensor_map row "T_2b"
    t_3a := get_val sensor_map row "T_3a"
    t_3b := get_val sensor_map row "T_3b"
    t_4a := get_val sensor_map row "T_4a" }

/-- One coil section of the row transform (steps 3-5 of the source;
instantiated with the LH / CTR / RH field names).  Emits nothing when
the coil's evaporator-outlet temperature is absent. -/
def coilSection (o : Oracle) (refrigerant : String) (p_suc_pa t_sat_suc_k : ℚ)
    (tF : Option ℚ) (kT kSat kSH kH kS kD : String) :
    Except String (List Field) :=
  match tF with
  | none => pure []
  | some t => do
    let tK := f_to_k t
    let h ← o "H" "T" tK "P" p_suc_pa refrigerant
    let s ← o "S" "T" tK "P" p_suc_pa refrigerant
    let d ← o "D" "T" tK "P" p_suc_pa refrigerant
    pure [(kT, .num t),
          (kSat, .num ((t_sat_suc_k - 273.15) * 9 / 5 + 32)),
          (kSH, .num ((tK - t_sat_suc_k) * 9 / 5)),
          (kH, .num (h / 1000)),
          (kS, .num (s / 1000)),
          (kD, .num d)]

/-- Step 6 of the row transform: the compressor-inlet section.  Returns
the density and enthalpy there (they feed step 10) along with the
fields, or `none` when `T_2b` is absent — in the source `rho_2b` and
`h_2b` are then never assigned. -/
def compInletSection (o : Oracle) (refrigerant : String)
    (p_suc_psig p_suc_pa t_sat_suc_k : ℚ) (tF : Option ℚ) :
    Except String (Option (ℚ × ℚ) × List Field) :=
  match tF with
  | none => pure (none, [])
  | some t => do
    let tK := f_to_k t
    let h ← o "H" "T" tK "P" p_suc_pa refrigerant
    let s ← o "S" "T" tK "P" p_suc_pa refrigerant
    let rho ← o "D" "T" tK "P" p_suc_pa refrigerant
    pure (some (rho, h),
          [("Press.suc", .num p_suc_psig),
           ("Comp.in", .num t),
           ("T saturation", .num ((t_sat_suc_k - 273.15) * 9 / 5 + 32)),
           ("Super heat", .num ((tK - t_sat_suc_k) * 9 / 5)),
           ("Density", .num rho),
           ("Enthalpy", .num (h / 1000)),
           ("Entropy", .num (s / 1000))])

/-- Step 7 of the row transform: compressor-outlet echo plus the
unconditional `Comp. rpm` field (stored even when speed is absent,
then holding Python `None`). -/
def compOutletFields (t_3a rpm : Option ℚ) : List Field :=
  (match t_3a with
   | some t => [("T comp outlet", Val.num t)]
   | none => []) ++
  [("Comp. rpm", match rpm with | some r => Val.num r | none => Val.null)]

/-- Step 8 of the row transform: condenser section (no oracle calls). -/
def condenserFields (p_disch_psig t_sat_disch_k : ℚ)
    (t_3b t_4a : Option ℚ) : List Field :=
  (match t_3b with
   | some t => [("T cond inlet", Val.num t)]
   | none => []) ++
  [("Press disch", Val.num p_disch_psig)] ++
  (match t_4a with
   | some t =>
       [("T cond. Outlet", Val.num t),
        ("T_sat_cond", Val.num ((t_sat_disch_k - 273.15) * 9 / 5 + 32)),
        ("Sub cooling_cond", Val.num ((t_sat_disch_k - f_to_k t) * 9 / 5))]
   | none => [])

/-- One TXV section of step 9 (instantiated per circuit).  Returns that
circuit's TXV-inlet enthalpy (feeds step 10) and the fields. -/
def txvSection (o : Oracle) (refrigerant : String)
    (p_disch_pa t_sat_disch_k : ℚ) (tF : Option ℚ)
    (kT kSat kSub kH : String) :
    Except String (Option ℚ × List Field) :=
  match tF with
  | none => pure (none, [])
  | some t => do
    let tK := f_to_k t
    let h ← o "H" "T" tK "P" p_disch_pa refrigerant
    pure (some h,
          [(kT, .num t),
           (kSat, .num ((t_sat_disch_k - 273.15) * 9 / 5 + 32)),
           (kSub, .num ((t_sat_disch_k - tK) * 9 / 5)),
           (kH, .num (h / 1000))])

/-- Step 10 of the row transform.  The guard mirrors the source line
`if rpm is not None and rpm > 0 and rho_2b and eta_vol > 0:` — after
`rpm > 0` passes, Python references the local `rho_2b`, which was
never assigned when `T_2b` was absent, raising `NameError`; the model
throws in that case.  `comp` carries `(rho_2b, h_2b)` when bound. -/
def massFlowSection (rpm : Option ℚ) (comp : Option (ℚ × ℚ))
    (eta_vol disp_m3 : ℚ) (h_4b_values : List ℚ) :
    Except String (List Field) :=
  match rpm with
  | none => pure []
  | some r =>
    if r > 0 then
      match comp with
      | none => Except.error "NameError: rho_2b is not defined"
      | some (rho_2b, h_2b) =>
        if rho_2b ≠ 0 ∧ eta_vol > 0 then
          if disp_m3 > 0 then
            let mass_flow_kgs := rho_2b * eta_vol * disp_m3 * (r / 60)
            if h_4b_values ≠ [] then
              let h_4b_avg := h_4b_values.sum / h_4b_values.length
              let cooling_cap_w := mass_flow_kgs * (h_2b - h_4b_avg)
              pure [("Mass flow rate", .num (mass_flow_kgs * 2.20462 * 3600)),
                    ("Cooling cap", .num (cooling_cap_w * 3.41214))]
            else pure []
          else pure []
        else pure []
    else pure []

/-- The `try:` body of `calculate_row_performance`
(calculation_engine.py:718-907), with the early `return` for missing
pressures modeled as the error branch carrying the same message. -/
def rowBody (o : Oracle) (refrigerant : String) (eta_vol disp_m3 : ℚ)
    (v : RowVals) : Except String (List Field) :=
  match v.p_suc, v.p_disch with
  | some ps, some pdis => do
      let p_suc_pa := psig_to_pa ps
      let p_disch_pa := psig_to_pa pdis
      let t_sat_suc_k ← o "T" "P" p_suc_pa "Q" 0 refrigerant
      let t_sat_disch_k ← o "T" "P" p_disch_pa "Q" 0 refrigerant
      let lh ← coilSection o refrigerant p_suc_pa t_sat_suc_k v.t_2a_lh
        "T_2a-LH" "T_sat.lh" "S.H_lh coil" "H_coil lh" "S_coil lh" "D_coil lh"
      let ctr ← coilSection o refrigerant p_suc_pa t_sat_suc_k v.t_2a_ctr
        "T_2a-ctr" "T_sat.ctr" "S.H_ctr coil" "H_coil ctr" "S_coil ctr" "D_coil ctr"
      let rh ← coilSection o refrigerant p_suc_pa t_sat_suc_k v.t_2a_rh
        "T_2a-RH" "T_sat.rh" "S.H_rh coil" "H_coil rh" "S_coil rh" "D_coil rh"
      let ci ← compInletSection o refrigerant ps p_suc_pa t_sat_suc_k v.t_2b
      let co := compOutletFields v.t_3a v.rpm
      let cond := condenserFields pdis t_sat_disch_k v.t_3b v.t_4a
      let txvLh ← txvSection o refrigerant p_disch_pa t_sat_disch_k v.t_4b_lh
        "TXV in-LH" "T_Saturation_txv_lh" "Subcooling_txv_lh" "Enthalpy_txv_lh"
      let txvCtr ← txvSection o refrigerant p_disch_pa t_sat_disch_k v.t_4b_ctr
        "TXV in-CTR" "T_Saturation_txv_ctr" "Subcooling_txv_ctr" "Enthalpy_txv_ctr"
      let txvRh ← txvSection o refrigerant p_disch_pa t_sat_disch_k v.t_4b_rh
        "TXV in-RH" "T_Saturation_txv_rh" "Subcooling_txv_rh" "Enthalpy_txv_rh"
      let h_4b_values :=
        (txvLh.1.toList) ++ (txvCtr.1.toList) ++ (txvRh.1.toList)
      let mf ← massFlowSection v.rpm ci.1 eta_vol disp_m3 h_4b_values
      pure (lh ++ ctr ++ rh ++ ci.2 ++ co ++ cond ++
            txvLh.2 ++ txvCtr.2 ++ txvRh.2 ++ mf)
  | _, _ =>
      Except.error
        "Missing pressure sensors - Please map suction and discharge pressure sensors in the Diagram tab"

/-- The `except` clause of `calculate_row_performance`: a failure
collapses the row to a single `error` field. -/
def wrapRow (e : Except String (List Field)) : List Field :=
  match e with
  | .ok fields => fields
  | .error m => [("error", .str m)]

/-- `calculate_row_performance` (calculation_engine.py:688-913): the
per-row transform; any failure inside the body yields a result whose
single field is `error`. -/
def calculate_row_performance (o : Oracle) (row : Row)
    (sensor_map : List (String × String)) (eta_vol disp_m3 : ℚ)
    (refrigerant : String) : List Field :=
  wrapRow (rowBody o refrigerant eta_vol disp_m3 (readVals sensor_map row))

-- ===== Topology snapshot and sensor-role resolution =====

/-- A component of the topology snapshot: its type and property bag
(property values kept as strings; only `circuit_label` is filtered on). -/
structure Component where
  ctype : String
  properties : List (String × String)
  deriving DecidableEq

/-- The read-only diagram model: components in dict (insertion) order,
plus the role-key → channel mapping table. -/
structure DiagramModel where
  components : List (String × Component)
  mappings : List (String × String)
  deriving DecidableEq

/-- Modelled from the spec: `resolve_mapped_sensor` from the missing
`port_resolver` module.  The mapping table is keyed by
`Type.Id.Port` with legacy fallback `Id.Port`; the lookup returns the
channel stored under whichever key is present. -/
def resolve_mapped_sensor (model : DiagramModel)
    (ctype cid port : String) : Option String :=
  match alookup (ctype ++ "." ++ cid ++ "." ++ port) model.mappings with
  | some ch => some ch
  | none => alookup (cid ++ "." ++ port) model.mappings

/-- One candidate rule of a required sensor role:
(component type, port, property filters). -/
structure RoleDef where
  ctype : String
  port : String
  filters : List (String × String)
  deriving DecidableEq

/-- The property-filter check inside `_find_sensor_for_role`: every
filter key must equal the stored property value. -/
def propsMatch (filters : List (String × String))
    (props : List (String × String)) : Bool :=
  filters.all (fun kv => alookup kv.1 props = some kv.2)

/-- The components matching one rule, in the order they appear in the
snapshot (Python dict iteration order). -/
def matchingComponents (model : DiagramModel) (d : RoleDef) :
    List (String × Component) :=
  model.components.filter
    (fun c => c.2.ctype = d.ctype && propsMatch d.filters c.2.properties)

/-- `_find_sensor_for_role` (calculation_orchestrator.py:457-509):
first matching component, in snapshot order, whose port resolves to a
truthy (non-empty) channel. -/
def find_sensor_for_role (model : DiagramModel) (d : RoleDef) :
    Option String :=
  (matchingComponents model d).findSome?
    (fun c =>
      match resolve_mapped_sensor model d.ctype c.1 d.port with
      | some s => if s = "" then none else some s
      | none => none)

/-- State of the sensor-map building pass of `run_batch_processing`:
the map built so far, the channels already claimed
(`duplicate_prevention`), and the unmapped-roles report. -/
structure BuildState where
  sensorMap : List (String × String)
  claimed : List String
  unmapped : List String
  deriving DecidableEq

/-- The initial build state. -/
def initBuild : BuildState := { sensorMap := [], claimed := [], unmapped := [] }

/-- The inner rule loop of Step 3 of `run_batch_processing`
(calculation_orchestrator.py:594-629): try each candidate rule; accept
the first resolved channel that exists among the input columns and is
not already claimed; report whether the role was mapped. -/
def tryRoleDefs (model : DiagramModel) (cols : List String)
    (st : BuildState) (key : String) :
    List RoleDef → BuildState × Bool
  | [] => (st, false)
  | d :: rest =>
    match find_sensor_for_role model d with
    | none => tryRoleDefs model cols st key rest
    | some sensor =>
      if sensor ∈ cols then
        if sensor ∈ st.claimed then
          tryRoleDefs model cols st key rest
        else if (alookup key st.sensorMap).isSome then
          (st, true)
        else
          ({ st with sensorMap := st.sensorMap ++ [(key, sensor)]
                     claimed := st.claimed ++ [sensor] }, true)
      else
        tryRoleDefs model cols st key rest

/-- One role of the Step 3 loop: when no rule produced a mapping, the
role is appended to the unmapped report. -/
def buildStep (model : DiagramModel) (cols : List String)
    (st : BuildState) (entry : String × List RoleDef) : BuildState :=
  let (st', found) := tryRoleDefs model cols st entry.1 entry.2
  if found then st' else { st' with unmapped := st'.unmapped ++ [entry.1] }

/-- The whole Step 3 pass over a role configuration, in order. -/
def buildSensorMap (model : DiagramModel) (cols : List String)
    (config : List (String × List RoleDef)) : BuildState :=
  config.foldl (buildStep model cols) initBuild

/-- `REQUIRED_SENSOR_ROLES` (calculation_orchestrator.py:397-454): the
fixed role configuration, in source order. -/
def REQUIRED_SENSOR_ROLES : List (String × List RoleDef) :=
  [("P_suc", [⟨"Compressor", "SP", []⟩]),
   ("P_disch", [⟨"Compressor", "DP", []⟩]),
   ("RPM", [⟨"Compressor", "RPM", []⟩]),
   ("T_2b", [⟨"Compressor", "inlet", []⟩]),
   ("T_3a", [⟨"Compressor", "outlet", []⟩]),
   ("T_3b", [⟨"Condenser", "inlet", []⟩]),
   ("T_4a", [⟨"Condenser", "outlet", []⟩]),
   ("T_waterin", [⟨"Condenser", "water_inlet", []⟩]),
   ("T_waterout", [⟨"Condenser", "water_outlet", []⟩]),
   ("T_1a-lh", [⟨"Distributor", "outlet_1", [("circuit_label", "Left")]⟩,
                ⟨"Evaporator", "inlet_circuit_1", [("circuit_label", "Left")]⟩]),
   ("T_1b-lh", [⟨"Evaporator", "inlet_circuit_2", [("circuit_label", "Left")]⟩]),
   ("T_2a-LH", [⟨"Evaporator", "outlet_circuit_1", [("circuit_label", "Left")]⟩]),
   ("T_4b-lh", [⟨"TXV", "inlet", [("circuit_label", "Left")]⟩]),
   ("T_1a-ctr", [⟨"Distributor", "outlet_1", [("circuit_label", "Center")]⟩,
                 ⟨"Evaporator", "inlet_circuit_1", [("circuit_label", "Center")]⟩]),
   ("T_1b-ctr", [⟨"Evaporator", "inlet_circuit_2", [("circuit_label", "Center")]⟩]),
   ("T_2a-ctr", [⟨"Evaporator", "outlet_circuit_1", [("circuit_label", "Center")]⟩]),
   ("T_4b-ctr", [⟨"TXV", "inlet", [("circuit_label", "Center")]⟩]),
   ("T_1a-rh", [⟨"Distributor", "outlet_1", [("circuit_label", "Right")]⟩,
                ⟨"Evaporator", "inlet_circuit_1", [("circuit_label", "Right")]⟩]),
   ("T_1c-rh", [⟨"Evaporator", "inlet_circuit_2", [("circuit_label", "Right")]⟩]),
   ("T_2a-RH", [⟨"Evaporator", "outlet_circuit_1", [("circuit_label", "Right")]⟩]),
   ("T_4b-rh", [⟨"TXV", "inlet", [("circuit_label", "Right")]⟩]),
   ("Cond.water.out", [⟨"Condenser", "water_out_temp", []⟩]),
   ("Cond.water.in", [⟨"Condenser", "water_in_temp", []⟩])]

/-- `run_batch_processing` (calculation_orchestrator.py:512-663):
calibration once, sensor-map build once, then the row transform
applied independently to every row, one output row per input row. -/
def run_batch_processing (o : Oracle) (ri : RatedInputs)
    (model : DiagramModel) (refrigerant : String)
    (cols : List String) (rows : List Row) : List (List Field) :=
  let etaRes := calculate_volumetric_efficiency o ri refrigerant
  let eta_vol := etaRes.eta_vol
  let disp_m3 := ft3_to_m3 (ri.disp_ft3.getD 0)
  let st := buildSensorMap model cols REQUIRED_SENSOR_ROLES
  rows.map (fun row =>
    calculate_row_performance o row st.sensorMap eta_vol disp_m3 refrigerant)

-- ===== 8-point cycle model: compute_8_point_cycle =====

/-- One state point of the 8-point cycle result (the per-state dict of
the source; keys absent for a given state are `none`). -/
structure StatePt where
  label : String
  T_K : ℚ
  T_F : ℚ
  P_Pa : ℚ
  P_kPa : ℚ
  h_kJkg : ℚ
  rho_kgm3 : ℚ
  s_kJkgK : ℚ
  T_sat_K : ℚ
  T_sat_F : ℚ
  superheat_F : Option ℚ := none
  subcooling_F : Option ℚ := none
  vapor_quality : Option ℚ := none
  quality_percent : Option ℚ := none
  deriving DecidableEq

/-- The `performance` sub-dict of the 8-point cycle result. -/
structure Perf where
  refrigeration_effect_kJkg : ℚ
  compressor_work_kJkg : Option ℚ
  heat_rejected_kJkg : Option ℚ
  cop : Option ℚ
  deriving DecidableEq

/-- The six optional input temperatures of `compute_8_point_cycle`. -/
structure Temps where
  T_2a : Option ℚ
  T_2b : Option ℚ
  T_3a : Option ℚ
  T_3b : Option ℚ
  T_4a : Option ℚ
  T_4b : Option ℚ
  deriving DecidableEq

/-- Each temperature filtered through Python truthiness (`if T_3a:`),
under which a supplied 0 behaves like an absent value. -/
def normTemps (t : Temps) : Temps :=
  { T_2a := optTruthy t.T_2a
    T_2b := optTruthy t.T_2b
    T_3a := optTruthy t.T_3a
    T_3b := optTruthy t.T_3b
    T_4a := optTruthy t.T_4a
    T_4b := optTruthy t.T_4b }

/-- Mutable state of the `try:` body of `compute_8_point_cycle`:
the states dict, the performance dict, the stored density, the local
variables that cross between blocks, and the error list. -/
structure CycleState where
  states : String → Option StatePt
  performance : Option Perf
  density_compressor_inlet_kgm3 : Option ℚ
  h4b : Option ℚ
  h2b : Option ℚ
  s2b : Option ℚ
  rho2b : Option ℚ
  errors : List String

/-- Dict update for the states map. -/
def updState (f : String → Option StatePt) (k : String) (v : StatePt) :
    String → Option StatePt :=
  fun k' => if k' = k then some v else f k'

/-- The empty initial cycle state. -/
def initCycle : CycleState :=
  { states := fun _ => none
    performance := none
    density_compressor_inlet_kgm3 := none
    h4b := none
    h2b := none
    s2b := none
    rho2b := none
    errors := [] }

/-- One block of the `try:` body: it may fail (an oracle call throwing)
or return the updated state. -/
abbrev CycleStep := CycleState → Except String CycleState

/-- A high-side superheated state block (states 3a and 3b): enthalpy,
density, entropy at (P, T), saturation at quality 1, superheat in °F. -/
def highSuperheatStep (o : Oracle) (lp : ℚ) (refr key lbl : String)
    (tOpt : Option ℚ) : CycleStep := fun cs =>
  match tOpt with
  | none => .ok cs
  | some T => do
    let h ← o "H" "P" lp "T" T refr
    let rho ← o "D" "P" lp "T" T refr
    let s ← o "S" "P" lp "T" T refr
    let tsat ← o "T" "P" lp "Q" 1 refr
    let pt : StatePt :=
      { label := lbl, T_K := T, T_F := T * 9 / 5 - 459.67,
        P_Pa := lp, P_kPa := lp / 1000,
        h_kJkg := h / 1000, rho_kgm3 := rho, s_kJkgK := s / 1000,
        T_sat_K := tsat, T_sat_F := tsat * 9 / 5 - 459.67,
        superheat_F := some ((T - tsat) * 9 / 5) }
    .ok { cs with states := updState cs.states key pt }

/-- The condenser-outlet block (state 4a): saturation at quality 0,
subcooling in °F. -/
def state4aStep (o : Oracle) (lp : ℚ) (refr : String)
    (tOpt : Option ℚ) : CycleStep := fun cs =>
  match tOpt with
  | none => .ok cs
  | some T => do
    let h ← o "H" "P" lp "T" T refr
    let rho ← o "D" "P" lp "T" T refr
    let s ← o "S" "P" lp "T" T refr
    let tsat ← o "T" "P" lp "Q" 0 refr
    let pt : StatePt :=
      { label := "Condenser Outlet", T_K := T, T_F := T * 9 / 5 - 459.67,
        P_Pa := lp, P_kPa := lp / 1000,
        h_kJkg := h / 1000, rho_kgm3 := rho, s_kJkgK := s / 1000,
        T_sat_K := tsat, T_sat_F := tsat * 9 / 5 - 459.67,
        subcooling_F := some ((tsat - T) * 9 / 5) }
    .ok { cs with states := updState cs.states "4a" pt }

/-- The TXV-inlet block (state 4b): like 4a, and it binds the local
`h_4b` used by the evaporator-inlet block. -/
def state4bStep (o : Oracle) (lp : ℚ) (refr : String)
    (tOpt : Option ℚ) : CycleStep := fun cs =>
  match tOpt with
  | none => .ok cs
  | some T => do
    let h ← o "H" "P" lp "T" T refr
    let rho ← o "D" "P" lp "T" T refr
    let s ← o "S" "P" lp "T" T refr
    let tsat ← o "T" "P" lp "Q" 0 refr
    let pt : StatePt :=
      { label := "TXV Inlet", T_K := T, T_F := T * 9 / 5 - 459.67,
        P_Pa := lp, P_kPa := lp / 1000,
        h_kJkg := h / 1000, rho_kgm3 := rho, s_kJkgK := s / 1000,
        T_sat_K := tsat, T_sat_F := tsat * 9 / 5 - 459.67,
        subcooling_F := some ((tsat - T) * 9 / 5) }
    .ok { cs with h4b := some h, states := updState cs.states "4b" pt }

/-- The evaporator-inlet block (state 1): guarded by `if h_4b:`
(truthiness), isenthalpic from 4b; temperature, density, entropy and
vapor quality evaluated at suction pressure and that enthalpy. -/
def state1Step (o : Oracle) (sp : ℚ) (refr : String) : CycleStep := fun cs =>
  match optTruthy cs.h4b with
  | none => .ok cs
  | some h1 => do
    let T1 ← o "T" "P" sp "H" h1 refr
    let rho1 ← o "D" "P" sp "H" h1 refr
    let s1 ← o "S" "P" sp "H" h1 refr
    let q1 ← o "Q" "P" sp "H" h1 refr
    let tsat ← o "T" "P" sp "Q" 1 refr
    let pt : StatePt :=
      { label := "Evaporator Inlet (After TXV)", T_K := T1,
        T_F := T1 * 9 / 5 - 459.67,
        P_Pa := sp, P_kPa := sp / 1000,
        h_kJkg := h1 / 1000, rho_kgm3 := rho1, s_kJkgK := s1 / 1000,
        T_sat_K := tsat, T_sat_F := tsat * 9 / 5 - 459.67,
        vapor_quality := some q1, quality_percent := some (q1 * 100) }
    .ok { cs with states := updState cs.states "1" pt }

/-- The evaporator-outlet block (state 2a). -/
def state2aStep (o : Oracle) (sp : ℚ) (refr : String)
    (tOpt : Option ℚ) : CycleStep := fun cs =>
  match tOpt with
  | none => .ok cs
  | some T => do
    let h ← o "H" "P" sp "T" T refr
    let rho ← o "D" "P" sp "T" T refr
    let s ← o "S" "P" sp "T" T refr
    let tsat ← o "T" "P" sp "Q" 1 refr
    let pt : StatePt :=
      { label := "Evaporator Outlet", T_K := T, T_F := T * 9 / 5 - 459.67,
        P_Pa := sp, P_kPa := sp / 1000,
        h_kJkg := h / 1000, rho_kgm3 := rho, s_kJkgK := s / 1000,
        T_sat_K := tsat, T_sat_F := tsat * 9 / 5 - 459.67,
        superheat_F := some ((T - tsat) * 9 / 5) }
    .ok { cs with states := updState cs.states "2a" pt }

/-- The compressor-inlet block (state 2b): also binds the locals
`h_2b`, `s_2b`, `rho_2b` used by the performance block. -/
def state2bStep (o : Oracle) (sp : ℚ) (refr : String)
    (tOpt : Option ℚ) : CycleStep := fun cs =>
  match tOpt with
  | none => .ok cs
  | some T => do
    let h ← o "H" "P" sp "T" T refr
    let rho ← o "D" "P" sp "T" T refr
    let s ← o "S" "P" sp "T" T refr
    let tsat ← o "T" "P" sp "Q" 1 refr
    let pt : StatePt :=
      { label := "Compressor Inlet", T_K := T, T_F := T * 9 / 5 - 459.67,
        P_Pa := sp, P_kPa := sp / 1000,
        h_kJkg := h / 1000, rho_kgm3 := rho, s_kJkgK := s / 1000,
        T_sat_K := tsat, T_sat_F := tsat * 9 / 5 - 459.67,
        superheat_F := some ((T - tsat) * 9 / 5) }
    .ok { cs with h2b := some h, s2b := some s, rho2b := some rho,
                  states := updState cs.states "2b" pt }

/-- The performance block: guarded by `if h_2b and h_4b:`
(truthiness of both); isentropic work needs truthy `s_2b`; heat
rejection needs truthy `T_3a` and `T_4a`; COP needs positive work. -/
def perfStep (o : Oracle) (lp : ℚ) (refr : String)
    (t3a t4a : Option ℚ) : CycleStep := fun cs =>
  match optTruthy cs.h2b, optTruthy cs.h4b with
  | some h2, some h4 => do
    let re := (h2 - h4) / 1000
    let work ←
      match optTruthy cs.s2b with
      | some s2 => do
          let hIsen ← o "H" "P" lp "S" s2 refr
          pure (some ((hIsen - h2) / 1000))
      | none => pure none
    let heat ←
      match t3a, t4a with
      | some T3, some T4 => do
          let h3act ← o "H" "P" lp "T" T3 refr
          let h4act ← o "H" "P" lp "T" T4 refr
          pure (some ((h3act - h4act) / 1000))
      | _, _ => pure none
    let cop :=
      match work with
      | some w => if w ≠ 0 ∧ w > 0 then some (re / w) else none
      | none => none
    let p : Perf :=
      { refrigeration_effect_kJkg := re, compressor_work_kJkg := work,
        heat_rejected_kJkg := heat, cop := cop }
    .ok { cs with performance := some p }
  | _, _ => .ok cs

/-- The final density store: guarded by `if rho_2b:` (truthiness). -/
def densityStep : CycleStep := fun cs =>
  match optTruthy cs.rho2b with
  | some rho => .ok { cs with density_compressor_inlet_kgm3 := some rho }
  | none => .ok cs

/-- The blocks of the `try:` body of `compute_8_point_cycle`, in
source order (3a, 3b, 4a, 4b, 1, 2a, 2b, performance, density). -/
def cycleSteps (o : Oracle) (sp lp : ℚ) (refr : String) (t : Temps) :
    List CycleStep :=
  [highSuperheatStep o lp refr "3a" "Compressor Outlet" t.T_3a,
   highSuperheatStep o lp refr "3b" "Condenser Inlet" t.T_3b,
   state4aStep o lp refr t.T_4a,
   state4bStep o lp refr t.T_4b,
   state1Step o sp refr,
   state2aStep o sp refr t.T_2a,
   state2bStep o sp refr t.T_2b,
   perfStep o lp refr t.T_3a t.T_4a,
   densityStep]

/-- Running the blocks under the enclosing `try/except`: the first
failure appends one error string and returns the state built so far. -/
def runSteps (st : CycleState) : List CycleStep → CycleState
  | [] => st
  | f :: fs =>
    match f st with
    | .ok st' => runSteps st' fs
    | .error m =>
        { st with errors := st.errors ++ ["Calculation error: " ++ m] }

/-- Running a prefix with no failure allowed: `none` when a block fails. -/
def runStepsOk (st : CycleState) : List CycleStep → Option CycleState
  | [] => some st
  | f :: fs =>
    match f st with
    | .ok st' => runStepsOk st' fs
    | .error _ => none

/-- The full result of `compute_8_point_cycle`. -/
structure CycleResult where
  refrigerant : String
  suction_pa : ℚ
  liquid_pa : ℚ
  suction_kPa : ℚ
  liquid_kPa : ℚ
  states : String → Option StatePt
  performance : Option Perf
  density_compressor_inlet_kgm3 : Option ℚ
  errors : List String

/-- Assembling the result record from the final cycle state. -/
def mkCycleResult (refr : String) (sp lp : ℚ) (cs : CycleState) :
    CycleResult :=
  { refrigerant := refr
    suction_pa := sp
    liquid_pa := lp
    suction_kPa := sp / 1000
    liquid_kPa := lp / 1000
    states := cs.states
    performance := cs.performance
    density_compressor_inlet_kgm3 := cs.density_compressor_inlet_kgm3
    errors := cs.errors }

/-- `compute_8_point_cycle` over truthiness-normalized temperatures. -/
def computeCycleNorm (o : Oracle) (sp lp : ℚ) (t : Temps)
    (refr : String) : CycleResult :=
  mkCycleResult refr sp lp (runSteps initCycle (cycleSteps o sp lp refr t))

/-- `compute_8_point_cycle` (calculation_engine.py:183-429). -/
def compute_8_point_cycle (o : Oracle) (sp lp : ℚ)
    (temperatures : Temps) (refr : String) : CycleResult :=
  computeCycleNorm o sp lp (normTemps temperatures) refr

-- ===== Shared helper definitions and lemmas =====

/-- Does the first list start with the second one? (character lists) -/
def startsWithChars : List Char → List Char → Bool
  | _, [] => true
  | [], _ :: _ => false
  | a :: as, b :: bs => a = b && startsWithChars as bs

/-- Does `needle` occur contiguously inside `hay`? (character lists) -/
def containsChars (hay needle : List Char) : Bool :=
  match hay with
  | [] => startsWithChars ([] : List Char) needle
  | _ :: rest => startsWithChars hay needle || containsChars rest needle

/-- Does the warning string `w` name (contain) the text `sub`? -/
def mentionsText (w sub : String) : Bool :=
  containsChars w.toList sub.toList

/-- A concrete oracle used by witnesses: every property query succeeds
with the fixed value `q`. -/
def oracleConst (q : ℚ) : Oracle := fun _ _ _ _ _ _ => .ok q

theorem except_bind_ok {α β : Type} {x : Except String α}
    {f : α → Except String β} {b : β} (h : x >>= f = .ok b) :
    ∃ a, x = .ok a ∧ f a = .ok b := by
  cases x with
  | ok a => exact ⟨a, rfl, h⟩
  | error e => simp [Bind.bind, Except.bind] at h

@[simp] theorem bind_ok_simp {α β : Type} (a : α) (f : α → Except String β) :
    (Except.ok a : Except String α) >>= f = f a := rfl

@[simp] theorem bind_error_simp {α β : Type} (e : String)
    (f : α → Except String β) :
    (Except.error e : Except String α) >>= f = .error e := rfl

theorem alookup_append {α : Type} (k : String) (l1 l2 : List (String × α)) :
    alookup k (l1 ++ l2) =
      match alookup k l1 with
      | some v => some v
      | none => alookup k l2 := by
  induction l1 with
  | nil => simp [alookup]
  | cons p rest ih =>
      by_cases h : p.1 = k <;> simp [alookup, h, ih]

theorem alookup_eq_none_of_not_mem {α : Type} {k : String}
    {l : List (String × α)} (h : k ∉ akeys l) : alookup k l = none := by
  induction l with
  | nil => rfl
  | cons p rest ih =>
      have h' : k ∉ p.1 :: akeys rest := h
      have hne : ¬ p.1 = k := fun hh => h' (hh ▸ List.mem_cons_self _ _)
      have hrest : k ∉ akeys rest := fun hh => h' (List.mem_cons_of_mem _ hh)
      simp [alookup, hne, ih hrest]

theorem alookup_mem {α : Type} {k : String} {v : α} :
    ∀ {l : List (String × α)}, alookup k l = some v → (k, v) ∈ l := by
  intro l
  induction l with
  | nil => intro h; simp [alookup] at h
  | cons p rest ih =>
      intro h
      by_cases hk : p.1 = k
      · simp [alookup, hk] at h
        subst hk; subst h
        exact List.mem_cons_self _ _
      · simp [alookup, hk] at h
        exact List.mem_cons_of_mem _ (ih h)

theorem optTruthy_ne_none {x : Option ℚ} (h : optTruthy x ≠ none) :
    x ≠ none := by
  cases x with
  | none => simp [optTruthy] at h
  | some v => simp

theorem optTruthy_eq_some {x : Option ℚ} {y : ℚ}
    (h : optTruthy x = some y) : x = some y := by
  cases x with
  | none => simp [optTruthy] at h
  | some v =>
      simp [optTruthy] at h
      by_cases hv : v = 0
      · simp [hv] at h
      · simp [hv] at h; simp [h]

-- ===== Claim C5 =====

/-- C5: if any one of the five rated calibration inputs is missing or
zero, the calibration stage returns `eta_vol = 0.85` with
`method = "default"`, and exactly one of its warnings names the missing
field; being a total function it never raises to the caller. -/
theorem c5_missing_rated_input_defaults (o : Oracle) (ri : RatedInputs)
    (refr : String) (f : RatedField)
    (h : isMissing (ratedFieldVal ri f) = true) :
    (calculate_volumetric_efficiency o ri refr).eta_vol = 0.85 ∧
    (calculate_volumetric_efficiency o ri refr).method = "default" ∧
    ((calculate_volumetric_efficiency o ri refr).warnings.filter
       (fun w => mentionsText w (ratedFieldName f))).length = 1 := by
  cases h1 : isMissing ri.m_dot_rated_lbhr <;>
  cases h2 : isMissing ri.hz_rated <;>
  cases h3 : isMissing ri.disp_ft3 <;>
  cases h4 : isMissing ri.rated_evap_temp_f <;>
  cases h5 : isMissing ri.rated_return_gas_temp_f <;>
  cases f <;>
  simp_all [calculate_volumetric_efficiency, missingList, ratedFieldVal,
            ratedFieldName, etaDefaultMissing] <;>
  decide

/-- Witness for C5 at a concrete input (speed missing). -/
theorem c5_missing_rated_input_defaults_witness :
    (calculate_volumetric_efficiency (oracleConst 1)
      { m_dot_rated_lbhr := some 100, hz_rated := none, disp_ft3 := some 1,
        rated_evap_temp_f := some 20, rated_return_gas_temp_f := some 65 }
      "R290").eta_vol = 0.85 ∧
    (calculate_volumetric_efficiency (oracleConst 1)
      { m_dot_rated_lbhr := some 100, hz_rated := none, disp_ft3 := some 1,
        rated_evap_temp_f := some 20, rated_return_gas_temp_f := some 65 }
      "R290").method = "default" ∧
    ((calculate_volumetric_efficiency (oracleConst 1)
      { m_dot_rated_lbhr := some 100, hz_rated := none, disp_ft3 := some 1,
        rated_evap_temp_f := some 20, rated_return_gas_temp_f := some 65 }
      "R290").warnings.filter
        (fun w => mentionsText w (ratedFieldName RatedField.speed))).length = 1 :=
  c5_missing_rated_input_defaults (oracleConst 1)
    { m_dot_rated_lbhr := some 100, hz_rated := none, disp_ft3 := some 1,
      rated_evap_temp_f := some 20, rated_return_gas_temp_f := some 65 }
    "R290" RatedField.speed (by decide)

-- ===== Claim C6 =====

/-- C6: with all five rated inputs present and nonzero and the oracle
succeeding, calibration returns `method = "calculated"` and
`eta_vol` = rated mass flow ÷ theoretical mass flow, where theoretical
mass flow is oracle density (at rated return-gas temperature and the
saturation pressure at rated evaporator temperature, quality 0)
converted to lb/ft³, times revolutions per hour, times displacement;
a zero theoretical mass flow yields the 0.85 default path instead. -/
theorem c6_calibrated_eta (o : Oracle) (ri : RatedInputs) (refr : String)
    (psat dens : ℚ)
    (hfull : missingList ri = [])
    (hP : o "P" "T" (f_to_k (ri.rated_evap_temp_f.getD 0)) "Q" 0 refr = .ok psat)
    (hD : o "D" "T" (f_to_k (ri.rated_return_gas_temp_f.getD 0)) "P" psat refr
            = .ok dens) :
    ((dens * 0.062428) * hz_to_rph (ri.hz_rated.getD 0) * ri.disp_ft3.getD 0 ≠ 0 →
       (calculate_volumetric_efficiency o ri refr).method = "calculated" ∧
       (calculate_volumetric_efficiency o ri refr).eta_vol =
         ri.m_dot_rated_lbhr.getD 0 /
           ((dens * 0.062428) * hz_to_rph (ri.hz_rated.getD 0) *
             ri.disp_ft3.getD 0)) ∧
    ((dens * 0.062428) * hz_to_rph (ri.hz_rated.getD 0) * ri.disp_ft3.getD 0 = 0 →
       (calculate_volumetric_efficiency o ri refr).method = "default" ∧
       (calculate_volumetric_efficiency o ri refr).eta_vol = 0.85) := by
  constructor
  · intro hnz
    simp only [calculate_volumetric_efficiency, hfull, hP, hD, bind_ok_simp,
               if_neg (by simp : ¬ ([] : List String) ≠ []),
               if_neg hnz]
    exact ⟨rfl, rfl⟩
  · intro hz
    simp only [calculate_volumetric_efficiency, hfull, hP, hD, bind_ok_simp,
               if_neg (by simp : ¬ ([] : List String) ≠ []),
               if_pos hz]
    exact ⟨rfl, rfl⟩

/-- Witness for C6 at a concrete input (constant oracle). -/
theorem c6_calibrated_eta_witness :
    (calculate_volumetric_efficiency (oracleConst 1)
      { m_dot_rated_lbhr := some 100, hz_rated := some 60, disp_ft3 := some 1,
        rated_evap_temp_f := some 20, rated_return_gas_temp_f := some 65 }
      "R290").method = "calculated" ∧
    (calculate_volumetric_efficiency (oracleConst 1)
      { m_dot_rated_lbhr := some 100, hz_rated := some 60, disp_ft3 := some 1,
        rated_evap_temp_f := some 20, rated_return_gas_temp_f := some 65 }
      "R290").eta_vol = 100 / ((1 * 0.062428) * hz_to_rph 60 * 1) :=
  (c6_calibrated_eta (oracleConst 1)
    { m_dot_rated_lbhr := some 100, hz_rated := some 60, disp_ft3 := some 1,
      rated_evap_temp_f := some 20, rated_return_gas_temp_f := some 65 }
    "R290" 1 1 (by decide) rfl rfl).1 (by norm_num [hz_to_rph])

-- ===== Claim C1 =====

/-- C1: in a batch run, a row missing the suction- or discharge-pressure
channel value transforms to a result whose only field is `error`; the
batch returns exactly one output row per input row, and every row's
output is the row transform of that row alone, so a fatal row never
affects the other rows. -/
theorem c1_fatal_row_isolated (o : Oracle) (ri : RatedInputs)
    (model : DiagramModel) (refr : String) (cols : List String)
    (rows : List Row) (i : ℕ) (row : Row)
    (hrow : rows.get? i = some row)
    (hmiss :
      get_val (buildSensorMap model cols REQUIRED_SENSOR_ROLES).sensorMap
          row "P_suc" = none ∨
      get_val (buildSensorMap model cols REQUIRED_SENSOR_ROLES).sensorMap
          row "P_disch" = none) :
    (run_batch_processing o ri model refr cols rows).length = rows.length ∧
    (run_batch_processing o ri model refr cols rows).get? i =
      some [("error", Val.str "Missing pressure sensors - Please map suction and discharge pressure sensors in the Diagram tab")] ∧
    (∀ j rj, rows.get? j = some rj →
      (run_batch_processing o ri model refr cols rows).get? j =
        some (calculate_row_performance o rj
          (buildSensorMap model cols REQUIRED_SENSOR_ROLES).sensorMap
          (calculate_volumetric_efficiency o ri refr).eta_vol
          (ft3_to_m3 (ri.disp_ft3.getD 0)) refr)) := by
  refine ⟨?_, ?_, ?_⟩
  · simp [run_batch_processing]
  · have hfatal : calculate_row_performance o row
        (buildSensorMap model cols REQUIRED_SENSOR_ROLES).sensorMap
        (calculate_volumetric_efficiency o ri refr).eta_vol
        (ft3_to_m3 (ri.disp_ft3.getD 0)) refr =
        [("error", Val.str "Missing pressure sensors - Please map suction and discharge pressure sensors in the Diagram tab")] := by
      rcases hmiss with hm | hm
      · simp [calculate_row_performance, wrapRow, rowBody, readVals, hm]
      · cases hps : get_val (buildSensorMap model cols REQUIRED_SENSOR_ROLES).sensorMap row "P_suc" <;>
          simp [calculate_row_performance, wrapRow, rowBody, readVals, hm, hps]
    rw [List.get?_eq_getElem?] at hrow
    simp [run_batch_processing]
    exact ⟨row, hrow, hfatal⟩
  · intro j rj hj
    rw [List.get?_eq_getElem?] at hj
    simp [run_batch_processing]
    exact ⟨rj, hj, rfl⟩

/-- A concrete topology for witnesses: one compressor with mapped
suction/discharge pressure channels. -/
def pressModel : DiagramModel :=
  { components := [("c1", { ctype := "Compressor", properties := [] })]
    mappings := [("Compressor.c1.SP", "PS"), ("Compressor.c1.DP", "PD")] }

/-- Witness for C1: a 3-row batch whose second row lacks the suction
pressure; row 2 collapses to the single `error` field while rows 1 and
3 are transformed normally. -/
theorem c1_fatal_row_isolated_witness :
    (run_batch_processing (oracleConst 1)
      { m_dot_rated_lbhr := some 100, hz_rated := some 60, disp_ft3 := some 1,
        rated_evap_temp_f := some 20, rated_return_gas_temp_f := some 65 }
      pressModel "R290" ["PS", "PD"]
      [[("PS", 10), ("PD", 250)], [("PD", 250)], [("PS", 10), ("PD", 250)]]).length = 3 ∧
    (run_batch_processing (oracleConst 1)
      { m_dot_rated_lbhr := some 100, hz_rated := some 60, disp_ft3 := some 1,
        rated_evap_temp_f := some 20, rated_return_gas_temp_f := some 65 }
      pressModel "R290" ["PS", "PD"]
      [[("PS", 10), ("PD", 250)], [("PD", 250)], [("PS", 10), ("PD", 250)]]).get? 1 =
      some [("error", Val.str "Missing pressure sensors - Please map suction and discharge pressure sensors in the Diagram tab")] := by
  have h := c1_fatal_row_isolated (oracleConst 1)
    { m_dot_rated_lbhr := some 100, hz_rated := some 60, disp_ft3 := some 1,
      rated_evap_temp_f := some 20, rated_return_gas_temp_f := some 65 }
    pressModel "R290" ["PS", "PD"]
    [[("PS", 10), ("PD", 250)], [("PD", 250)], [("PS", 10), ("PD", 250)]]
    1 [("PD", 250)] (by rfl) (Or.inl (by rfl))
  exact ⟨h.1, h.2.1⟩

-- ===== Claim C4 =====

/-- A sensor map covering the pressures, speed and compressor-inlet
temperature roles. -/
def smC4 : List (String × String) :=
  [("P_suc", "PS"), ("P_disch", "PD"), ("RPM", "R"), ("T_2b", "C1")]

/-- C4 (code bug): a row with both pressures present and a positive
speed but no compressor-inlet temperature makes the row transform
return the single `error` field — the step-10 guard references the
local `rho_2b`, which was never assigned, raising `NameError` — instead
of silently omitting the mass-flow and cooling-capacity fields. -/
theorem c4_missing_prerequisite_raises :
    calculate_row_performance (oracleConst 1)
      [("PS", 10), ("PD", 250), ("R", 3000)] smC4 (1/2) 1 "R290" =
      [("error", Val.str "NameError: rho_2b is not defined")] := by
  rfl

-- ===== Claim C10 =====

/-- The six temperature keys of the 8-point model. -/
inductive TempKey where
  | k2a
  | k2b
  | k3a
  | k3b
  | k4a
  | k4b
  deriving DecidableEq

/-- Overwriting one temperature of the input dict. -/
def setTemp (t : Temps) : TempKey → Option ℚ → Temps
  | .k2a, v => { t with T_2a := v }
  | .k2b, v => { t with T_2b := v }
  | .k3a, v => { t with T_3a := v }
  | .k3b, v => { t with T_3b := v }
  | .k4a, v => { t with T_4a := v }
  | .k4b, v => { t with T_4b := v }

/-- C10: in the 8-point model a supplied temperature equal to 0 behaves
exactly like an absent one (presence is numeric truthiness), for every
key, oracle and input; the row transform instead tests `is not None`,
so there a zero compressor-inlet temperature still emits its section
while an absent one does not. -/
theorem c10_zero_temp_is_absent :
    (∀ (o : Oracle) (sp lp : ℚ) (t : Temps) (refr : String) (k : TempKey),
      compute_8_point_cycle o sp lp (setTemp t k (some 0)) refr =
      compute_8_point_cycle o sp lp (setTemp t k none) refr) ∧
    alookup "Comp.in"
      (calculate_row_performance (oracleConst 1)
        [("PS", 10), ("PD", 250), ("C1", 0)]
        [("P_suc", "PS"), ("P_disch", "PD"), ("T_2b", "C1")] 1 1 "R290") =
      some (Val.num 0) ∧
    alookup "Comp.in"
      (calculate_row_performance (oracleConst 1)
        [("PS", 10), ("PD", 250)]
        [("P_suc", "PS"), ("P_disch", "PD"), ("T_2b", "C1")] 1 1 "R290") =
      none := by
  refine ⟨?_, by rfl, by rfl⟩
  intro o sp lp t refr k
  have hnorm : normTemps (setTemp t k (some 0)) = normTemps (setTemp t k none) := by
    cases k <;> simp [normTemps, setTemp, optTruthy]
  simp only [compute_8_point_cycle, hnorm]

-- ===== Claim C2: build-pass lemmas =====

theorem alookup_append_some {α : Type} {k : String} {v : α}
    {l1 l2 : List (String × α)} (h : alookup k l1 = some v) :
    alookup k (l1 ++ l2) = some v := by
  rw [alookup_append, h]

theorem tryRoleDefs_cases (model : DiagramModel) (cols : List String)
    (st : BuildState) (key : String) (ds : List RoleDef) :
    tryRoleDefs model cols st key ds = (st, false) ∨
    tryRoleDefs model cols st key ds = (st, true) ∨
    ∃ s, s ∉ st.claimed ∧ s ∈ cols ∧
      tryRoleDefs model cols st key ds =
        ({ st with sensorMap := st.sensorMap ++ [(key, s)],
                   claimed := st.claimed ++ [s] }, true) := by
  induction ds with
  | nil => left; rfl
  | cons d rest ih =>
    cases hf : find_sensor_for_role model d with
    | none => simpa [tryRoleDefs, hf] using ih
    | some s =>
      by_cases hc : s ∈ cols
      · by_cases hcl : s ∈ st.claimed
        · simpa [tryRoleDefs, hf, hc, hcl] using ih
        · by_cases hm : (alookup key st.sensorMap).isSome
          · right; left; simp [tryRoleDefs, hf, hc, hcl, hm]
          · right; right
            exact ⟨s, hcl, hc, by simp [tryRoleDefs, hf, hc, hcl, hm]⟩
      · simpa [tryRoleDefs, hf, hc] using ih

theorem buildStep_cases (model : DiagramModel) (cols : List String)
    (st : BuildState) (e : String × List RoleDef) :
    buildStep model cols st e = { st with unmapped := st.unmapped ++ [e.1] } ∨
    buildStep model cols st e = st ∨
    ∃ s, s ∉ st.claimed ∧ s ∈ cols ∧
      buildStep model cols st e =
        { st with sensorMap := st.sensorMap ++ [(e.1, s)],
                  claimed := st.claimed ++ [s] } := by
  rcases tryRoleDefs_cases model cols st e.1 e.2 with h | h | ⟨s, h1, h2, h⟩
  · left; simp [buildStep, h]
  · right; left; simp [buildStep, h]
  · right; right; exact ⟨s, h1, h2, by simp [buildStep, h]⟩

theorem buildStep_append (model : DiagramModel) (cols : List String)
    (st : BuildState) (e : String × List RoleDef) :
    ∃ ma ca ua,
      (buildStep model cols st e).sensorMap = st.sensorMap ++ ma ∧
      (buildStep model cols st e).claimed = st.claimed ++ ca ∧
      (buildStep model cols st e).unmapped = st.unmapped ++ ua := by
  rcases buildStep_cases model cols st e with h | h | ⟨s, _, _, h⟩
  · exact ⟨[], [], [e.1], by simp [h]⟩
  · exact ⟨[], [], [], by simp [h]⟩
  · exact ⟨[(e.1, s)], [s], [], by simp [h]⟩

theorem buildFold_append (model : DiagramModel) (cols : List String) :
    ∀ (config : List (String × List RoleDef)) (st : BuildState),
    ∃ ma ca ua,
      (config.foldl (buildStep model cols) st).sensorMap = st.sensorMap ++ ma ∧
      (config.foldl (buildStep model cols) st).claimed = st.claimed ++ ca ∧
      (config.foldl (buildStep model cols) st).unmapped = st.unmapped ++ ua := by
  intro config
  induction config with
  | nil => exact fun st => ⟨[], [], [], by simp⟩
  | cons e rest ih =>
    intro st
    obtain ⟨ma1, ca1, ua1, h1, h2, h3⟩ := buildStep_append model cols st e
    obtain ⟨ma2, ca2, ua2, g1, g2, g3⟩ := ih (buildStep model cols st e)
    exact ⟨ma1 ++ ma2, ca1 ++ ca2, ua1 ++ ua2,
      by simp [List.foldl_cons, g1, h1],
      by simp [List.foldl_cons, g2, h2],
      by simp [List.foldl_cons, g3, h3]⟩

theorem buildFold_inv (model : DiagramModel) (cols : List String) :
    ∀ (config : List (String × List RoleDef)) (st : BuildState),
    (∀ v ∈ avalues st.sensorMap, v ∈ st.claimed) →
    (avalues st.sensorMap).Nodup →
    (∀ e ∈ config, e.1 ∉ akeys st.sensorMap) →
    (config.map Prod.fst).Nodup →
    (∀ v ∈ avalues (config.foldl (buildStep model cols) st).sensorMap,
       v ∈ (config.foldl (buildStep model cols) st).claimed) ∧
    (avalues (config.foldl (buildStep model cols) st).sensorMap).Nodup := by
  intro config
  induction config with
  | nil => exact fun st h1 h2 _ _ => ⟨h1, h2⟩
  | cons e rest ih =>
    intro st h1 h2 h3 h4
    rw [List.foldl_cons]
    have h4' : (rest.map Prod.fst).Nodup := (List.nodup_cons.mp h4).2
    have hkey : e.1 ∉ rest.map Prod.fst := (List.nodup_cons.mp h4).1
    rcases buildStep_cases model cols st e with h | h | ⟨s, hs1, hs2, h⟩
    · exact ih _ (by rw [h]; exact h1) (by rw [h]; exact h2)
        (by rw [h]; exact fun e' he' => h3 e' (List.mem_cons_of_mem _ he'))
        h4'
    · exact ih _ (by rw [h]; exact h1) (by rw [h]; exact h2)
        (by rw [h]; exact fun e' he' => h3 e' (List.mem_cons_of_mem _ he'))
        h4'
    · have havals : avalues (st.sensorMap ++ [(e.1, s)]) =
          avalues st.sensorMap ++ [s] := by simp [avalues]
      have hakeys : akeys (st.sensorMap ++ [(e.1, s)]) =
          akeys st.sensorMap ++ [e.1] := by simp [akeys]
      refine ih _ ?_ ?_ ?_ h4'
      · intro v hv
        rw [h] at hv ⊢
        replace hv : v ∈ avalues st.sensorMap ++ [s] := by
          rw [← havals]; exact hv
        rcases List.mem_append.mp hv with hv' | hv'
        · exact List.mem_append_left _ (h1 v hv')
        · exact List.mem_append_right _ hv'
      · have hsnot : s ∉ avalues st.sensorMap :=
          fun hmem => hs1 (h1 s hmem)
        rw [h]
        show (avalues (st.sensorMap ++ [(e.1, s)])).Nodup
        rw [havals]
        refine List.Nodup.append h2 (List.nodup_singleton s) ?_
        intro a ha hb
        rw [List.mem_singleton] at hb
        subst hb
        exact hsnot ha
      · intro e' he'
        have hne : e'.1 ≠ e.1 := by
          intro hh
          exact hkey (hh ▸ List.mem_map_of_mem Prod.fst he')
        have hnotold : e'.1 ∉ akeys st.sensorMap :=
          h3 e' (List.mem_cons_of_mem _ he')
        rw [h]
        show e'.1 ∉ akeys (st.sensorMap ++ [(e.1, s)])
        rw [hakeys]
        intro hmem
        rcases List.mem_append.mp hmem with hm | hm
        · exact hnotold hm
        · exact hne (List.mem_singleton.mp hm)

theorem inj_of_avalues_nodup {l : List (String × String)}
    (hv : (avalues l).Nodup) {k1 k2 c : String}
    (h1 : alookup k1 l = some c) (h2 : alookup k2 l = some c) : k1 = k2 := by
  have m1 := alookup_mem h1
  have m2 := alookup_mem h2
  have := List.inj_on_of_nodup_map (f := Prod.snd) hv m1 m2 rfl
  exact congrArg Prod.fst this

theorem tryRoleDefs_all_blocked (model : DiagramModel) (cols : List String)
    (st : BuildState) (key : String) (ds : List RoleDef)
    (h : ∀ d ∈ ds, ∀ c, find_sensor_for_role model d = some c →
          c ∉ cols ∨ c ∈ st.claimed) :
    tryRoleDefs model cols st key ds = (st, false) := by
  induction ds with
  | nil => rfl
  | cons d rest ih =>
    cases hf : find_sensor_for_role model d with
    | none =>
        simp [tryRoleDefs, hf]
        exact ih (fun d' hd' => h d' (List.mem_cons_of_mem _ hd'))
    | some s =>
        rcases h d (List.mem_cons_self _ _) s hf with hc | hc
        · simp [tryRoleDefs, hf, hc]
          exact ih (fun d' hd' => h d' (List.mem_cons_of_mem _ hd'))
        · by_cases hcols : s ∈ cols
          · simp [tryRoleDefs, hf, hcols, hc]
            exact ih (fun d' hd' => h d' (List.mem_cons_of_mem _ hd'))
          · simp [tryRoleDefs, hf, hcols]
            exact ih (fun d' hd' => h d' (List.mem_cons_of_mem _ hd'))

/-- C2: the channel map built by the batch pass is injective — for any
topology and input columns no two distinct roles map to one channel —
and when, in the fixed configuration split as
`pre ++ (r1, ds1) :: mid ++ (r2, ds2) :: post`, every candidate rule of
roles `r1` and `r2` resolves to the same channel `ch` (available in the
data and not claimed while processing `pre`, with `r1` not yet mapped),
then the earlier role `r1` is mapped to `ch` and the later role `r2`
lands in the unmapped report. -/
theorem c2_sensor_map_injective (model : DiagramModel) (cols : List String)
    (model2 : DiagramModel) (cols2 : List String)
    (pre mid post : List (String × List RoleDef))
    (r1 r2 ch : String) (d1 : RoleDef) (ds1tl ds2 : List RoleDef)
    (hcfg : REQUIRED_SENSOR_ROLES =
      pre ++ (r1, d1 :: ds1tl) :: mid ++ (r2, ds2) :: post)
    (hall1 : find_sensor_for_role model2 d1 = some ch)
    (hall2 : ∀ d ∈ ds2, find_sensor_for_role model2 d = some ch)
    (hcol : ch ∈ cols2)
    (hfresh : ch ∉ (pre.foldl (buildStep model2 cols2) initBuild).claimed)
    (hkey : alookup r1 (pre.foldl (buildStep model2 cols2) initBuild).sensorMap
              = none) :
    (∀ k1 k2 c,
      alookup k1 (buildSensorMap model cols REQUIRED_SENSOR_ROLES).sensorMap
        = some c →
      alookup k2 (buildSensorMap model cols REQUIRED_SENSOR_ROLES).sensorMap
        = some c →
      k1 = k2) ∧
    alookup r1 (buildSensorMap model2 cols2 REQUIRED_SENSOR_ROLES).sensorMap
      = some ch ∧
    r2 ∈ (buildSensorMap model2 cols2 REQUIRED_SENSOR_ROLES).unmapped := by
  refine ⟨?_, ?_⟩
  · intro k1 k2 c h1 h2
    have hinv := buildFold_inv model cols REQUIRED_SENSOR_ROLES initBuild
      (by simp [initBuild, avalues]) (by simp [initBuild, avalues])
      (by simp [initBuild, akeys]) (by decide)
    exact inj_of_avalues_nodup hinv.2 h1 h2
  · obtain ⟨st1, hst1⟩ : ∃ s, pre.foldl (buildStep model2 cols2) initBuild = s :=
      ⟨_, rfl⟩
    rw [hst1] at hfresh hkey
    have hstep1 : buildStep model2 cols2 st1 (r1, d1 :: ds1tl) =
        { st1 with sensorMap := st1.sensorMap ++ [(r1, ch)],
                   claimed := st1.claimed ++ [ch] } := by
      have hm : (alookup r1 st1.sensorMap).isSome = false := by
        rw [hkey]; rfl
      simp [buildStep, tryRoleDefs, hall1, hcol, hfresh, hm]
    obtain ⟨st2, hst2⟩ : ∃ s, ({ st1 with sensorMap := st1.sensorMap ++ [(r1, ch)], claimed := st1.claimed ++ [ch] } : BuildState) = s := ⟨_, rfl⟩
    rw [hst2] at hstep1
    have hlook2 : alookup r1 st2.sensorMap = some ch := by
      rw [← hst2]
      show alookup r1 (st1.sensorMap ++ [(r1, ch)]) = some ch
      rw [alookup_append, hkey]
      simp [alookup]
    have hcl2 : ch ∈ st2.claimed := by
      rw [← hst2]
      exact List.mem_append_right _ (List.mem_singleton_self ch)
    obtain ⟨st3, hst3⟩ : ∃ s, mid.foldl (buildStep model2 cols2) st2 = s :=
      ⟨_, rfl⟩
    obtain ⟨ma, ca, ua, hma, hca, hua⟩ := buildFold_append model2 cols2 mid st2
    rw [hst3] at hma hca hua
    have hlook3 : alookup r1 st3.sensorMap = some ch := by
      rw [hma]; exact alookup_append_some hlook2
    have hcl3 : ch ∈ st3.claimed := by
      rw [hca]; exact List.mem_append_left _ hcl2
    have hstep2 : buildStep model2 cols2 st3 (r2, ds2) =
        { st3 with unmapped := st3.unmapped ++ [r2] } := by
      have hblocked := tryRoleDefs_all_blocked model2 cols2 st3 r2 ds2
        (fun d hd c hc => by
          have hd' := hall2 d hd
          rw [hd'] at hc
          cases hc
          exact Or.inr hcl3)
      simp [buildStep, hblocked]
    have hfold : buildSensorMap model2 cols2 REQUIRED_SENSOR_ROLES =
        post.foldl (buildStep model2 cols2)
          { st3 with unmapped := st3.unmapped ++ [r2] } := by
      rw [buildSensorMap, hcfg]
      rw [List.foldl_append, List.foldl_cons, List.foldl_append,
          List.foldl_cons]
      rw [hst1, hstep1, hst3, hstep2]
    obtain ⟨ma2, ca2, ua2, gma, gca, gua⟩ :=
      buildFold_append model2 cols2 post
        { st3 with unmapped := st3.unmapped ++ [r2] }
    constructor
    · rw [hfold, gma]
      exact alookup_append_some hlook3
    · rw [hfold, gua]
      exact List.mem_append_left _
        (List.mem_append_right _ (List.mem_singleton_self r2))

/-- A topology whose single compressor has both its SP and DP ports
mapped to the same channel, and whose components are stored in
non-id-sorted order. -/
def twoCompModel : DiagramModel :=
  { components := [("b", { ctype := "Compressor", properties := [] }),
                   ("a", { ctype := "Compressor", properties := [] })]
    mappings := [("Compressor.b.SP", "chB"), ("Compressor.a.SP", "chA"),
                 ("Compressor.b.DP", "chB"), ("Compressor.a.DP", "chA")] }

/-- Witness for C2: on `twoCompModel` both the suction- and
discharge-pressure roles resolve to channel `chB`; the earlier role
`P_suc` claims it and `P_disch` is reported unmapped. -/
theorem c2_sensor_map_injective_witness :
    alookup "P_suc"
      (buildSensorMap twoCompModel ["chA", "chB"] REQUIRED_SENSOR_ROLES).sensorMap
      = some "chB" ∧
    "P_disch" ∈
      (buildSensorMap twoCompModel ["chA", "chB"] REQUIRED_SENSOR_ROLES).unmapped := by
  have h := c2_sensor_map_injective twoCompModel ["chA", "chB"]
    twoCompModel ["chA", "chB"]
    [] [] (REQUIRED_SENSOR_ROLES.drop 2)
    "P_suc" "P_disch" "chB"
    ⟨"Compressor", "SP", []⟩ [] [⟨"Compressor", "DP", []⟩]
    (by rfl) (by rfl) (by decide) (by decide) (by decide) (by rfl)
  exact ⟨h.2.1, h.2.2⟩

-- ===== Claim C8 =====

/-- Lexicographic comparison of two character lists. -/
def idLeChars : List Char → List Char → Bool
  | [], _ => true
  | _ :: _, [] => false
  | a :: as, b :: bs => if a = b then idLeChars as bs else decide (a < b)

/-- Lexicographic comparison of two component ids. -/
def idLe (a b : String) : Bool := idLeChars a.toList b.toList

/-- Insertion into an id-sorted component list. -/
def insertById (c : String × Component) :
    List (String × Component) → List (String × Component)
  | [] => [c]
  | d :: rest => if idLe c.1 d.1 then c :: d :: rest else d :: insertById c rest

/-- Sorting a component list by component id. -/
def sortById (l : List (String × Component)) : List (String × Component) :=
  l.foldr insertById []

/-- The resolver as the claim words it ("a stable id-sorted order"):
matching components are tried sorted by id rather than in the
snapshot's insertion order.  Written for comparison with
`find_sensor_for_role`. -/
def find_sensor_for_role_id_sorted (model : DiagramModel) (d : RoleDef) :
    Option String :=
  (sortById (matchingComponents model d)).findSome?
    (fun c =>
      match resolve_mapped_sensor model d.ctype c.1 d.port with
      | some s => if s = "" then none else some s
      | none => none)

/-- C8 counterexample: on a snapshot whose components are stored in
non-id-sorted order, the implemented resolver returns the first match
in insertion order (`chB`, component `b`), while the id-sorted resolver
of the claim would return `chA` (component `a`). -/
theorem c8_counterexample_insertion_order :
    find_sensor_for_role twoCompModel ⟨"Compressor", "SP", []⟩ = some "chB" ∧
    find_sensor_for_role_id_sorted twoCompModel ⟨"Compressor", "SP", []⟩
      = some "chA" ∧
    some "chB" ≠ some "chA" := ⟨by decide, by rfl, by decide⟩

theorem insertById_front {x : String × Component}
    {l : List (String × Component)} (h : ∀ y ∈ l, idLe x.1 y.1 = true) :
    insertById x l = x :: l := by
  cases l with
  | nil => rfl
  | cons y ys =>
      show (if idLe x.1 y.1 then x :: y :: ys else y :: insertById x ys) = x :: y :: ys
      rw [if_pos (h y (List.mem_cons_self _ _))]

theorem sortById_eq_of_sorted :
    ∀ {l : List (String × Component)},
      List.Pairwise (fun a b => idLe a.1 b.1 = true) l → sortById l = l := by
  intro l
  induction l with
  | nil => intro _; rfl
  | cons x xs ih =>
      intro h
      have h1 := (List.pairwise_cons.mp h).1
      have h2 := (List.pairwise_cons.mp h).2
      show insertById x (sortById xs) = x :: xs
      rw [ih h2]
      exact insertById_front h1

/-- C8 amended: for one required role, the rule loop tries the
candidate rules in priority order and maps the role to the first rule's
resolved channel, with no match yielding an unmapped report rather than
an error; within one rule the resolver tries the matching components in
the snapshot's insertion order — which agrees with the claim's
id-sorted order exactly when the snapshot stores components id-sorted. -/
theorem c8_amended_resolver_order (model : DiagramModel) (r : String)
    (ds : List RoleDef) (cols : List String)
    (hcols : ∀ d ∈ ds, ∀ c, find_sensor_for_role model d = some c → c ∈ cols) :
    (∀ c, ds.findSome? (find_sensor_for_role model) = some c →
        (buildSensorMap model cols [(r, ds)]).sensorMap = [(r, c)] ∧
        (buildSensorMap model cols [(r, ds)]).unmapped = []) ∧
    (ds.findSome? (find_sensor_for_role model) = none →
        (buildSensorMap model cols [(r, ds)]).sensorMap = [] ∧
        (buildSensorMap model cols [(r, ds)]).unmapped = [r]) ∧
    (List.Pairwise (fun a b => idLe a.1 b.1 = true) model.components →
        ∀ d, find_sensor_for_role model d =
          find_sensor_for_role_id_sorted model d) := by
  have key : ∀ (ds' : List RoleDef),
      (∀ d ∈ ds', ∀ c, find_sensor_for_role model d = some c → c ∈ cols) →
      (∀ c, ds'.findSome? (find_sensor_for_role model) = some c →
         tryRoleDefs model cols initBuild r ds' =
           (({ sensorMap := [(r, c)], claimed := [c], unmapped := [] } : BuildState), true)) ∧
      (ds'.findSome? (find_sensor_for_role model) = none →
         tryRoleDefs model cols initBuild r ds' = (initBuild, false)) := by
    intro ds'
    induction ds' with
    | nil => exact fun _ => ⟨fun c hc => by simp [List.findSome?] at hc,
        fun _ => rfl⟩
    | cons d rest ih =>
        intro hc
        cases hf : find_sensor_for_role model d with
        | some s =>
            refine ⟨fun c hfs => ?_, fun hn => ?_⟩
            · rw [List.findSome?_cons, hf] at hfs
              cases hfs
              have hin : s ∈ cols := hc d (List.mem_cons_self _ _) s hf
              simp [tryRoleDefs, hf, hin, initBuild, alookup]
            · rw [List.findSome?_cons, hf] at hn
              cases hn
        | none =>
            have ihr := ih (fun d' hd' => hc d' (List.mem_cons_of_mem _ hd'))
            refine ⟨fun c hfs => ?_, fun hn => ?_⟩
            · rw [List.findSome?_cons, hf] at hfs
              simpa [tryRoleDefs, hf] using ihr.1 c hfs
            · rw [List.findSome?_cons, hf] at hn
              simpa [tryRoleDefs, hf] using ihr.2 hn
  refine ⟨?_, ?_, ?_⟩
  · intro c hc
    have h := (key ds hcols).1 c hc
    constructor
    · simp [buildSensorMap, buildStep, h]
    · simp [buildSensorMap, buildStep, h]
  · intro hn
    have h := (key ds hcols).2 hn
    constructor
    · simp only [buildSensorMap, List.foldl_cons, List.foldl_nil, buildStep, h]
      simp [initBuild]
    · simp only [buildSensorMap, List.foldl_cons, List.foldl_nil, buildStep, h]
      simp [initBuild]
  · intro hsorted d
    have hp : List.Pairwise (fun a b => idLe a.1 b.1 = true)
        (matchingComponents model d) := by
      unfold matchingComponents
      exact List.Pairwise.filter _ hsorted
    unfold find_sensor_for_role find_sensor_for_role_id_sorted
    rw [sortById_eq_of_sorted hp]

/-- Witness for C8 amended: the single-rule suction-pressure role on
the concrete two-compressor snapshot maps to the first
insertion-order channel `chB`. -/
theorem c8_amended_resolver_order_witness :
    (buildSensorMap twoCompModel ["chA", "chB"]
      [("P_suc", [⟨"Compressor", "SP", []⟩])]).sensorMap
      = [("P_suc", "chB")] ∧
    (buildSensorMap twoCompModel ["chA", "chB"]
      [("P_suc", [⟨"Compressor", "SP", []⟩])]).unmapped = [] := by
  have h := c8_amended_resolver_order twoCompModel "P_suc"
    [⟨"Compressor", "SP", []⟩] ["chA", "chB"]
    (by
      intro d hd c hc
      rw [List.mem_singleton] at hd
      subst hd
      rw [show find_sensor_for_role twoCompModel ⟨"Compressor", "SP", []⟩
            = some "chB" from rfl] at hc
      cases hc
      decide)
  exact h.1 "chB" rfl

-- ===== 8-point cycle: per-block elimination lemmas =====

theorem highSuperheatStep_ok {o : Oracle} {lp : ℚ} {refr key lbl : String}
    {tOpt : Option ℚ} {cs cs' : CycleState}
    (h : highSuperheatStep o lp refr key lbl tOpt cs = .ok cs') :
    cs'.errors = cs.errors ∧ cs'.h4b = cs.h4b ∧
    (∀ k, k ≠ key → cs'.states k = cs.states k) := by
  cases tOpt with
  | none =>
      simp only [highSuperheatStep] at h
      cases h
      exact ⟨rfl, rfl, fun _ _ => rfl⟩
  | some T =>
      simp only [highSuperheatStep] at h
      obtain ⟨v1, e1, h⟩ := except_bind_ok h
      obtain ⟨v2, e2, h⟩ := except_bind_ok h
      obtain ⟨v3, e3, h⟩ := except_bind_ok h
      obtain ⟨v4, e4, h⟩ := except_bind_ok h
      cases h
      refine ⟨rfl, rfl, fun k hk => ?_⟩
      simp [updState, hk]

theorem state4aStep_ok {o : Oracle} {lp : ℚ} {refr : String}
    {tOpt : Option ℚ} {cs cs' : CycleState}
    (h : state4aStep o lp refr tOpt cs = .ok cs') :
    cs'.errors = cs.errors ∧ cs'.h4b = cs.h4b ∧
    (∀ k, k ≠ "4a" → cs'.states k = cs.states k) := by
  cases tOpt with
  | none =>
      simp only [state4aStep] at h
      cases h
      exact ⟨rfl, rfl, fun _ _ => rfl⟩
  | some T =>
      simp only [state4aStep] at h
      obtain ⟨v1, e1, h⟩ := except_bind_ok h
      obtain ⟨v2, e2, h⟩ := except_bind_ok h
      obtain ⟨v3, e3, h⟩ := except_bind_ok h
      obtain ⟨v4, e4, h⟩ := except_bind_ok h
      cases h
      refine ⟨rfl, rfl, fun k hk => ?_⟩
      simp [updState, hk]

theorem state4bStep_ok {o : Oracle} {lp : ℚ} {refr : String}
    {tOpt : Option ℚ} {cs cs' : CycleState}
    (h : state4bStep o lp refr tOpt cs = .ok cs') :
    cs'.errors = cs.errors ∧
    ((tOpt = none ∧ cs' = cs) ∨
     (tOpt ≠ none ∧ cs'.h4b ≠ none ∧
      (∀ st4, cs'.states "4b" = some st4 →
         cs'.h4b = some (1000 * st4.h_kJkg)) ∧
      (∀ k, k ≠ "4b" → cs'.states k = cs.states k))) := by
  cases tOpt with
  | none =>
      simp only [state4bStep] at h
      cases h
      exact ⟨rfl, Or.inl ⟨rfl, rfl⟩⟩
  | some T =>
      simp only [state4bStep] at h
      obtain ⟨v1, e1, h⟩ := except_bind_ok h
      obtain ⟨v2, e2, h⟩ := except_bind_ok h
      obtain ⟨v3, e3, h⟩ := except_bind_ok h
      obtain ⟨v4, e4, h⟩ := except_bind_ok h
      cases h
      refine ⟨rfl, Or.inr ⟨by simp, by simp, ?_, fun k hk => by simp [updState, hk]⟩⟩
      intro st4 hst4
      simp only [updState, if_pos rfl] at hst4
      have hmul : (1000 : ℚ) * (v1 / 1000) = v1 := by
        rw [mul_comm]
        exact div_mul_cancel₀ v1 (by norm_num)
      cases hst4
      show some v1 = some (1000 * (v1 / 1000))
      rw [hmul]

theorem state1Step_ok {o : Oracle} {sp : ℚ} {refr : String}
    {cs cs' : CycleState}
    (h : state1Step o sp refr cs = .ok cs') :
    cs'.errors = cs.errors ∧ cs'.h4b = cs.h4b ∧
    ((optTruthy cs.h4b = none ∧ cs' = cs) ∨
     ((∀ k, k ≠ "1" → cs'.states k = cs.states k) ∧
      (∀ st1, cs'.states "1" = some st1 →
        cs.h4b = some (1000 * st1.h_kJkg) ∧
        o "T" "P" sp "H" (1000 * st1.h_kJkg) refr = .ok st1.T_K ∧
        o "D" "P" sp "H" (1000 * st1.h_kJkg) refr = .ok st1.rho_kgm3 ∧
        o "S" "P" sp "H" (1000 * st1.h_kJkg) refr = .ok (1000 * st1.s_kJkgK) ∧
        (∃ q, o "Q" "P" sp "H" (1000 * st1.h_kJkg) refr = .ok q ∧
           st1.vapor_quality = some q)))) := by
  cases ht : optTruthy cs.h4b with
  | none =>
      simp only [state1Step, ht] at h
      cases h
      exact ⟨rfl, rfl, Or.inl ⟨rfl, rfl⟩⟩
  | some h1 =>
      simp only [state1Step, ht] at h
      obtain ⟨v1, e1, h⟩ := except_bind_ok h
      obtain ⟨v2, e2, h⟩ := except_bind_ok h
      obtain ⟨v3, e3, h⟩ := except_bind_ok h
      obtain ⟨v4, e4, h⟩ := except_bind_ok h
      obtain ⟨v5, e5, h⟩ := except_bind_ok h
      cases h
      refine ⟨rfl, rfl, Or.inr ⟨fun k hk => by simp [updState, hk], ?_⟩⟩
      intro st1 hst1
      simp only [updState, if_pos rfl] at hst1
      cases hst1
      have hmul : (1000 : ℚ) * (h1 / 1000) = h1 := by
        rw [mul_comm]
        exact div_mul_cancel₀ h1 (by norm_num)
      have hmuls : (1000 : ℚ) * (v3 / 1000) = v3 := by
        rw [mul_comm]
        exact div_mul_cancel₀ v3 (by norm_num)
      refine ⟨?_, ?_, ?_, ?_, ⟨v4, ?_, rfl⟩⟩
      · show cs.h4b = some (1000 * (h1 / 1000))
        rw [hmul]
        exact optTruthy_eq_some ht
      · show o "T" "P" sp "H" (1000 * (h1 / 1000)) refr = .ok v1
        rw [hmul]
        exact e1
      · show o "D" "P" sp "H" (1000 * (h1 / 1000)) refr = .ok v2
        rw [hmul]
        exact e2
      · show o "S" "P" sp "H" (1000 * (h1 / 1000)) refr
            = .ok (1000 * (v3 / 1000))
        rw [hmul, hmuls]
        exact e3
      · show o "Q" "P" sp "H" (1000 * (h1 / 1000)) refr = .ok v4
        rw [hmul]
        exact e4

theorem state2aStep_ok {o : Oracle} {sp : ℚ} {refr : String}
    {tOpt : Option ℚ} {cs cs' : CycleState}
    (h : state2aStep o sp refr tOpt cs = .ok cs') :
    cs'.errors = cs.errors ∧ cs'.h4b = cs.h4b ∧
    (∀ k, k ≠ "2a" → cs'.states k = cs.states k) := by
  cases tOpt with
  | none =>
      simp only [state2aStep] at h
      cases h
      exact ⟨rfl, rfl, fun _ _ => rfl⟩
  | some T =>
      simp only [state2aStep] at h
      obtain ⟨v1, e1, h⟩ := except_bind_ok h
      obtain ⟨v2, e2, h⟩ := except_bind_ok h
      obtain ⟨v3, e3, h⟩ := except_bind_ok h
      obtain ⟨v4, e4, h⟩ := except_bind_ok h
      cases h
      refine ⟨rfl, rfl, fun k hk => ?_⟩
      simp [updState, hk]

theorem state2bStep_ok {o : Oracle} {sp : ℚ} {refr : String}
    {tOpt : Option ℚ} {cs cs' : CycleState}
    (h : state2bStep o sp refr tOpt cs = .ok cs') :
    cs'.errors = cs.errors ∧ cs'.h4b = cs.h4b ∧
    (∀ k, k ≠ "2b" → cs'.states k = cs.states k) := by
  cases tOpt with
  | none =>
      simp only [state2bStep] at h
      cases h
      exact ⟨rfl, rfl, fun _ _ => rfl⟩
  | some T =>
      simp only [state2bStep] at h
      obtain ⟨v1, e1, h⟩ := except_bind_ok h
      obtain ⟨v2, e2, h⟩ := except_bind_ok h
      obtain ⟨v3, e3, h⟩ := except_bind_ok h
      obtain ⟨v4, e4, h⟩ := except_bind_ok h
      cases h
      refine ⟨rfl, rfl, fun k hk => ?_⟩
      simp [updState, hk]

theorem perfStep_ok {o : Oracle} {lp : ℚ} {refr : String}
    {t3a t4a : Option ℚ} {cs cs' : CycleState}
    (h : perfStep o lp refr t3a t4a cs = .ok cs') :
    cs'.errors = cs.errors ∧ cs'.h4b = cs.h4b ∧ cs'.states = cs.states := by
  cases h2 : optTruthy cs.h2b with
  | none =>
      simp only [perfStep, h2] at h
      cases h
      exact ⟨rfl, rfl, rfl⟩
  | some hv2 =>
      cases h4 : optTruthy cs.h4b with
      | none =>
          simp only [perfStep, h2, h4] at h
          cases h
          exact ⟨rfl, rfl, rfl⟩
      | some hv4 =>
          cases hs : optTruthy cs.s2b <;>
          cases t3a <;>
          cases t4a <;>
          · simp only [perfStep, h2, h4, hs] at h
            repeat
              obtain ⟨_, _, h⟩ := except_bind_ok h
            cases h
            exact ⟨rfl, rfl, rfl⟩

theorem densityStep_ok {cs cs' : CycleState}
    (h : densityStep cs = .ok cs') :
    cs'.errors = cs.errors ∧ cs'.h4b = cs.h4b ∧ cs'.states = cs.states := by
  cases hr : optTruthy cs.rho2b with
  | none =>
      simp only [densityStep, hr] at h
      cases h
      exact ⟨rfl, rfl, rfl⟩
  | some rho =>
      simp only [densityStep, hr] at h
      cases h
      exact ⟨rfl, rfl, rfl⟩

/-- Every block of the cycle leaves the error list unchanged when it
succeeds. -/
theorem cycleSteps_errors_frame (o : Oracle) (sp lp : ℚ) (refr : String)
    (t : Temps) :
    ∀ f ∈ cycleSteps o sp lp refr t, ∀ cs cs',
      f cs = .ok cs' → cs'.errors = cs.errors := by
  intro f hf cs cs' h
  simp only [cycleSteps, List.mem_cons, List.mem_singleton] at hf
  rcases hf with rfl | rfl | rfl | rfl | rfl | rfl | rfl | rfl | rfl | hf
  · exact (highSuperheatStep_ok h).1
  · exact (highSuperheatStep_ok h).1
  · exact (state4aStep_ok h).1
  · exact (state4bStep_ok h).1
  · exact (state1Step_ok h).1
  · exact (state2aStep_ok h).1
  · exact (state2bStep_ok h).1
  · exact (perfStep_ok h).1
  · exact (densityStep_ok h).1
  · exact absurd hf (by simp)

/-- Running under the enclosing `try/except` either succeeds everywhere
or stops at the first failing block, keeping the prefix state and
appending one error string. -/
theorem runSteps_decomp :
    ∀ (steps : List CycleStep) (st : CycleState),
    (∀ f ∈ steps, ∀ cs cs', f cs = .ok cs' → cs'.errors = cs.errors) →
    (∃ cs, runStepsOk st steps = some cs ∧ runSteps st steps = cs ∧
       cs.errors = st.errors) ∨
    (∃ pre f suf cs msg, steps = pre ++ f :: suf ∧
       runStepsOk st pre = some cs ∧ f cs = .error msg ∧
       cs.errors = st.errors ∧
       runSteps st steps =
         { cs with errors := cs.errors ++ ["Calculation error: " ++ msg] }) := by
  intro steps
  induction steps with
  | nil => exact fun st _ => Or.inl ⟨st, rfl, rfl, rfl⟩
  | cons f fs ih =>
      intro st hpres
      cases hf : f st with
      | error m =>
          refine Or.inr ⟨[], f, fs, st, m, rfl, rfl, hf, rfl, ?_⟩
          simp [runSteps, hf]
      | ok st' =>
          have herr : st'.errors = st.errors :=
            hpres f (List.mem_cons_self _ _) st st' hf
          rcases ih st' (fun g hg => hpres g (List.mem_cons_of_mem _ hg)) with
            ⟨cs, hok, hrun, he⟩ | ⟨pre, g, suf, cs, msg, hsplit, hok, hg, he, hrun⟩
          · exact Or.inl ⟨cs, by simp [runStepsOk, hf, hok],
              by simp [runSteps, hf, hrun], he.trans herr⟩
          · refine Or.inr ⟨f :: pre, g, suf, cs, msg, by rw [hsplit]; rfl, ?_, hg,
              he.trans herr, ?_⟩
            · simp [runStepsOk, hf, hok]
            · simp [runSteps, hf, hrun]

-- ===== Claim C9 =====

/-- C9: in the 8-point model every oracle failure is caught and
reported as a single error string in the result's error list (never
raised — the function is total), and the returned states are exactly
those of the successful prefix of blocks, so every state point computed
before the failure is preserved. -/
theorem c9_failure_preserves_partial_result (o : Oracle) (sp lp : ℚ)
    (t : Temps) (refr : String) :
    (∃ cs, runStepsOk initCycle (cycleSteps o sp lp refr (normTemps t))
        = some cs ∧
       (compute_8_point_cycle o sp lp t refr).states = cs.states ∧
       (compute_8_point_cycle o sp lp t refr).errors = []) ∨
    (∃ pre f suf cs msg,
       cycleSteps o sp lp refr (normTemps t) = pre ++ f :: suf ∧
       runStepsOk initCycle pre = some cs ∧
       f cs = .error msg ∧
       (compute_8_point_cycle o sp lp t refr).states = cs.states ∧
       (compute_8_point_cycle o sp lp t refr).errors =
         ["Calculation error: " ++ msg]) := by
  rcases runSteps_decomp (cycleSteps o sp lp refr (normTemps t)) initCycle
      (cycleSteps_errors_frame o sp lp refr (normTemps t)) with
    ⟨cs, hok, hrun, he⟩ | ⟨pre, f, suf, cs, msg, hsplit, hok, hf, he, hrun⟩
  · refine Or.inl ⟨cs, hok, ?_, ?_⟩
    · show (runSteps initCycle (cycleSteps o sp lp refr (normTemps t))).states
        = cs.states
      rw [hrun]
    · show (runSteps initCycle (cycleSteps o sp lp refr (normTemps t))).errors
        = []
      rw [hrun, he]
      rfl
  · refine Or.inr ⟨pre, f, suf, cs, msg, hsplit, hok, hf, ?_, ?_⟩
    · show (runSteps initCycle (cycleSteps o sp lp refr (normTemps t))).states
        = cs.states
      rw [hrun]
    · show (runSteps initCycle (cycleSteps o sp lp refr (normTemps t))).errors
        = ["Calculation error: " ++ msg]
      rw [hrun]
      show cs.errors ++ ["Calculation error: " ++ msg] = _
      rw [he]
      rfl

-- ===== Claim C7 =====

/-- The evaporator-inlet state's defining oracle relations: temperature,
density, entropy and vapor quality all evaluated at suction pressure
and the state's own enthalpy (in J/kg). -/
def OracleFacts (o : Oracle) (sp : ℚ) (refr : String) (st1 : StatePt) : Prop :=
  o "T" "P" sp "H" (1000 * st1.h_kJkg) refr = .ok st1.T_K ∧
  o "D" "P" sp "H" (1000 * st1.h_kJkg) refr = .ok st1.rho_kgm3 ∧
  o "S" "P" sp "H" (1000 * st1.h_kJkg) refr = .ok (1000 * st1.s_kJkgK) ∧
  (∃ q, o "Q" "P" sp "H" (1000 * st1.h_kJkg) refr = .ok q ∧
     st1.vapor_quality = some q)

/-- A block that leaves states `1`, `4b` and the local `h_4b` alone. -/
def Pres14 (f : CycleStep) : Prop :=
  ∀ cs cs', f cs = .ok cs' →
    cs'.states "1" = cs.states "1" ∧ cs'.states "4b" = cs.states "4b" ∧
    cs'.h4b = cs.h4b

theorem runSteps_pres14 :
    ∀ (steps : List CycleStep) (cs : CycleState),
      (∀ f ∈ steps, Pres14 f) →
      (runSteps cs steps).states "1" = cs.states "1" ∧
      (runSteps cs steps).states "4b" = cs.states "4b" ∧
      (runSteps cs steps).h4b = cs.h4b := by
  intro steps
  induction steps with
  | nil => exact fun cs _ => ⟨rfl, rfl, rfl⟩
  | cons f fs ih =>
      intro cs hp
      cases hf : f cs with
      | error m => simp [runSteps, hf]
      | ok cs' =>
          have hpf := hp f (List.mem_cons_self _ _) cs cs' hf
          have := ih cs' (fun g hg => hp g (List.mem_cons_of_mem _ hg))
          simp only [runSteps, hf]
          exact ⟨this.1.trans hpf.1, this.2.1.trans hpf.2.1,
            this.2.2.trans hpf.2.2⟩

theorem runSteps_cons_ok {f : CycleStep} {fs : List CycleStep}
    {st st' : CycleState} (h : f st = .ok st') :
    runSteps st (f :: fs) = runSteps st' fs := by
  rw [runSteps, h]

theorem runSteps_cons_error {f : CycleStep} {fs : List CycleStep}
    {st : CycleState} {m : String} (h : f st = .error m) :
    runSteps st (f :: fs) =
      { st with errors := st.errors ++ ["Calculation error: " ++ m] } := by
  rw [runSteps, h]

theorem c7_conclude (o : Oracle) (sp : ℚ) (refr : String)
    (t4bOrig : Option ℚ) (cs : CycleState)
    (h4link : ∀ st4, cs.states "4b" = some st4 →
        cs.h4b = some (1000 * st4.h_kJkg))
    (h1c : ∀ st1, cs.states "1" = some st1 →
        optTruthy t4bOrig ≠ none ∧ cs.h4b = some (1000 * st1.h_kJkg) ∧
        OracleFacts o sp refr st1) :
    (∀ st1 st4, cs.states "1" = some st1 → cs.states "4b" = some st4 →
       st1.h_kJkg = st4.h_kJkg) ∧
    (∀ st1, cs.states "1" = some st1 →
       t4bOrig ≠ none ∧ OracleFacts o sp refr st1) := by
  constructor
  · intro st1 st4 hs1 hs4
    have h1 := (h1c st1 hs1).2.1
    have h2 := h4link st4 hs4
    rw [h1] at h2
    exact mul_left_cancel₀ (by norm_num : (1000 : ℚ) ≠ 0)
      (Option.some.inj h2)
  · intro st1 hs1
    exact ⟨optTruthy_ne_none (h1c st1 hs1).1, (h1c st1 hs1).2.2⟩

/-- C7: whenever both the evaporator-inlet state (`1`) and the
TXV-inlet state (`4b`) are present in an 8-point result, their stored
enthalpies are exactly equal; the evaporator-inlet state appears only
when the expansion-inlet temperature was supplied, and its temperature,
density, entropy and vapor quality all come from the oracle evaluated
at suction pressure and that shared enthalpy. -/
theorem c7_isenthalpic_evap_inlet (o : Oracle) (sp lp : ℚ) (t : Temps)
    (refr : String) :
    (∀ st1 st4,
      (compute_8_point_cycle o sp lp t refr).states "1" = some st1 →
      (compute_8_point_cycle o sp lp t refr).states "4b" = some st4 →
      st1.h_kJkg = st4.h_kJkg) ∧
    (∀ st1,
      (compute_8_point_cycle o sp lp t refr).states "1" = some st1 →
      t.T_4b ≠ none ∧ OracleFacts o sp refr st1) := by
  show (∀ st1 st4,
      (runSteps initCycle (cycleSteps o sp lp refr (normTemps t))).states "1"
        = some st1 →
      (runSteps initCycle (cycleSteps o sp lp refr (normTemps t))).states "4b"
        = some st4 →
      st1.h_kJkg = st4.h_kJkg) ∧
    (∀ st1,
      (runSteps initCycle (cycleSteps o sp lp refr (normTemps t))).states "1"
        = some st1 →
      t.T_4b ≠ none ∧ OracleFacts o sp refr st1)
  simp only [cycleSteps]
  -- Step 3a
  cases e1 : highSuperheatStep o lp refr "3a" "Compressor Outlet"
      (normTemps t).T_3a initCycle with
  | error m =>
      rw [runSteps_cons_error e1]
      exact c7_conclude o sp refr t.T_4b _
        (fun st4 h => by simp [initCycle] at h)
        (fun st1 h => by simp [initCycle] at h)
  | ok s1 =>
  rw [runSteps_cons_ok e1]
  obtain ⟨_, hb1, hf1⟩ := highSuperheatStep_ok e1
  have h1n1 : s1.states "1" = none := by
    rw [hf1 "1" (by decide)]; rfl
  have h4n1 : s1.states "4b" = none := by
    rw [hf1 "4b" (by decide)]; rfl
  -- Step 3b
  cases e2 : highSuperheatStep o lp refr "3b" "Condenser Inlet"
      (normTemps t).T_3b s1 with
  | error m =>
      rw [runSteps_cons_error e2]
      exact c7_conclude o sp refr t.T_4b _
        (fun st4 h => by rw [h4n1] at h; simp at h)
        (fun st1 h => by rw [h1n1] at h; simp at h)
  | ok s2 =>
  rw [runSteps_cons_ok e2]
  obtain ⟨_, hb2, hf2⟩ := highSuperheatStep_ok e2
  have h1n2 : s2.states "1" = none := by rw [hf2 "1" (by decide)]; exact h1n1
  have h4n2 : s2.states "4b" = none := by rw [hf2 "4b" (by decide)]; exact h4n1
  -- Step 4a
  cases e3 : state4aStep o lp refr (normTemps t).T_4a s2 with
  | error m =>
      rw [runSteps_cons_error e3]
      exact c7_conclude o sp refr t.T_4b _
        (fun st4 h => by rw [h4n2] at h; simp at h)
        (fun st1 h => by rw [h1n2] at h; simp at h)
  | ok s3 =>
  rw [runSteps_cons_ok e3]
  obtain ⟨_, hb3, hf3⟩ := state4aStep_ok e3
  have h1n3 : s3.states "1" = none := by rw [hf3 "1" (by decide)]; exact h1n2
  have h4n3 : s3.states "4b" = none := by rw [hf3 "4b" (by decide)]; exact h4n2
  have hb3' : s3.h4b = none := by
    rw [hb3, hb2, hb1]; rfl
  -- Step 4b
  cases e4 : state4bStep o lp refr (normTemps t).T_4b s3 with
  | error m =>
      rw [runSteps_cons_error e4]
      exact c7_conclude o sp refr t.T_4b _
        (fun st4 h => by rw [h4n3] at h; simp at h)
        (fun st1 h => by rw [h1n3] at h; simp at h)
  | ok s4 =>
  rw [runSteps_cons_ok e4]
  obtain ⟨_, hd4⟩ := state4bStep_ok e4
  have hfacts4 : s4.states "1" = none ∧
      (∀ st4, s4.states "4b" = some st4 →
         s4.h4b = some (1000 * st4.h_kJkg)) ∧
      (s4.h4b ≠ none → optTruthy t.T_4b ≠ none) := by
    rcases hd4 with ⟨_, rfl⟩ | ⟨ht4, _, hlink, hfr⟩
    · exact ⟨h1n3, fun st4 h => by rw [h4n3] at h; simp at h,
        fun hne => absurd hb3' hne⟩
    · refine ⟨by rw [hfr "1" (by decide)]; exact h1n3, hlink, fun _ => ?_⟩
      exact ht4
  -- Step 1
  cases e5 : state1Step o sp refr s4 with
  | error m =>
      rw [runSteps_cons_error e5]
      exact c7_conclude o sp refr t.T_4b _
        hfacts4.2.1
        (fun st1 h => by rw [hfacts4.1] at h; simp at h)
  | ok s5 =>
  rw [runSteps_cons_ok e5]
  obtain ⟨_, hb5, hd5⟩ := state1Step_ok e5
  have hfacts5 :
      (∀ st4, s5.states "4b" = some st4 →
         s5.h4b = some (1000 * st4.h_kJkg)) ∧
      (∀ st1, s5.states "1" = some st1 →
         optTruthy t.T_4b ≠ none ∧ s5.h4b = some (1000 * st1.h_kJkg) ∧
         OracleFacts o sp refr st1) := by
    rcases hd5 with ⟨_, rfl⟩ | ⟨hfr, hclause⟩
    · exact ⟨hfacts4.2.1,
        fun st1 h => by rw [hfacts4.1] at h; simp at h⟩
    · constructor
      · intro st4 h
        rw [hfr "4b" (by decide)] at h
        rw [hb5]
        exact hfacts4.2.1 st4 h
      · intro st1 h
        obtain ⟨hh4, hT, hD, hS, hQ⟩ := hclause st1 h
        refine ⟨?_, ?_, hT, hD, hS, hQ⟩
        · exact hfacts4.2.2 (by rw [hh4]; simp)
        · rw [hb5]; exact hh4
  -- Steps 2a, 2b, performance, density: they preserve 1, 4b and h4b
  have hpres : ∀ f ∈ [state2aStep o sp refr (normTemps t).T_2a,
      state2bStep o sp refr (normTemps t).T_2b,
      perfStep o lp refr (normTemps t).T_3a (normTemps t).T_4a,
      densityStep], Pres14 f := by
    intro f hf
    simp only [List.mem_cons, List.mem_singleton] at hf
    rcases hf with rfl | rfl | rfl | rfl | hf
    · intro cs cs' h
      obtain ⟨_, hb, hframe⟩ := state2aStep_ok h
      exact ⟨hframe "1" (by decide), hframe "4b" (by decide), hb⟩
    · intro cs cs' h
      obtain ⟨_, hb, hframe⟩ := state2bStep_ok h
      exact ⟨hframe "1" (by decide), hframe "4b" (by decide), hb⟩
    · intro cs cs' h
      obtain ⟨_, hb, hst⟩ := perfStep_ok h
      exact ⟨by rw [hst], by rw [hst], hb⟩
    · intro cs cs' h
      obtain ⟨_, hb, hst⟩ := densityStep_ok h
      exact ⟨by rw [hst], by rw [hst], hb⟩
    · exact absurd hf (by simp)
  obtain ⟨hp1, hp4, hpb⟩ := runSteps_pres14 _ s5 hpres
  refine c7_conclude o sp refr t.T_4b _ ?_ ?_
  · intro st4 h
    rw [hp4] at h
    rw [hpb]
    exact hfacts5.1 st4 h
  · intro st1 h
    rw [hp1] at h
    obtain ⟨ha, hb', hc⟩ := hfacts5.2 st1 h
    exact ⟨ha, by rw [hpb]; exact hb', hc⟩

/-- Concrete temperatures for the C7 witness. -/
def tempsC7 : Temps :=
  { T_2a := some 280, T_2b := some 283, T_3a := some 350,
    T_3b := some 340, T_4a := some 310, T_4b := some 308 }

/-- Witness for C7: with a constant-success oracle both states exist
and the enthalpy equality and oracle relations hold concretely. -/
theorem c7_isenthalpic_evap_inlet_witness :
    ∃ st1 st4,
      (compute_8_point_cycle (oracleConst 2) 170000 1800000 tempsC7
        "R290").states "1" = some st1 ∧
      (compute_8_point_cycle (oracleConst 2) 170000 1800000 tempsC7
        "R290").states "4b" = some st4 ∧
      st1.h_kJkg = st4.h_kJkg ∧
      tempsC7.T_4b ≠ none ∧
      OracleFacts (oracleConst 2) 170000 "R290" st1 := by
  refine ⟨_, _, rfl, rfl, ?_, ?_, ?_⟩
  · exact (c7_isenthalpic_evap_inlet (oracleConst 2) 170000 1800000 tempsC7
      "R290").1 _ _ rfl rfl
  · exact ((c7_isenthalpic_evap_inlet (oracleConst 2) 170000 1800000 tempsC7
      "R290").2 _ rfl).1
  · exact ((c7_isenthalpic_evap_inlet (oracleConst 2) 170000 1800000 tempsC7
      "R290").2 _ rfl).2

-- ===== Claim C3: section lemmas =====

/-- The fields the claim allows to change when speed is removed, plus
the speed echo field the code also changes. -/
def notSpeedDerived (f : Field) : Bool :=
  !(f.1 == "Mass flow rate" || f.1 == "Cooling cap" || f.1 == "Comp. rpm")

theorem alookup_none_of_keys {α : Type} {k : String} :
    ∀ {l : List (String × α)}, (∀ f ∈ l, f.1 ≠ k) → alookup k l = none := by
  intro l
  induction l with
  | nil => intro _; rfl
  | cons p rest ih =>
      intro h
      have hp := h p (List.mem_cons_self _ _)
      simp only [alookup, if_neg hp]
      exact ih (fun f hf => h f (List.mem_cons_of_mem _ hf))

theorem coilSection_mem_keys {o : Oracle} {refr : String} {p ts : ℚ}
    {tF : Option ℚ} {kT kSat kSH kH kS kD : String} {fs : List Field}
    (h : coilSection o refr p ts tF kT kSat kSH kH kS kD = .ok fs) :
    ∀ f ∈ fs, f.1 = kT ∨ f.1 = kSat ∨ f.1 = kSH ∨ f.1 = kH ∨
      f.1 = kS ∨ f.1 = kD := by
  cases tF with
  | none =>
      simp only [coilSection] at h
      cases h
      intro f hf
      cases hf
  | some t =>
      simp only [coilSection] at h
      obtain ⟨v1, e1, h⟩ := except_bind_ok h
      obtain ⟨v2, e2, h⟩ := except_bind_ok h
      obtain ⟨v3, e3, h⟩ := except_bind_ok h
      cases h
      intro f hf
      simp only [List.mem_cons, List.mem_singleton] at hf
      rcases hf with rfl | rfl | rfl | rfl | rfl | rfl | hf
      · exact Or.inl rfl
      · exact Or.inr (Or.inl rfl)
      · exact Or.inr (Or.inr (Or.inl rfl))
      · exact Or.inr (Or.inr (Or.inr (Or.inl rfl)))
      · exact Or.inr (Or.inr (Or.inr (Or.inr (Or.inl rfl))))
      · exact Or.inr (Or.inr (Or.inr (Or.inr (Or.inr rfl))))
      · exact absurd hf (by simp)

theorem compInletSection_mem_keys {o : Oracle} {refr : String}
    {ps ppa ts : ℚ} {tF : Option ℚ} {pr : Option (ℚ × ℚ) × List Field}
    (h : compInletSection o refr ps ppa ts tF = .ok pr) :
    ∀ f ∈ pr.2, f.1 = "Press.suc" ∨ f.1 = "Comp.in" ∨
      f.1 = "T saturation" ∨ f.1 = "Super heat" ∨ f.1 = "Density" ∨
      f.1 = "Enthalpy" ∨ f.1 = "Entropy" := by
  cases tF with
  | none =>
      simp only [compInletSection] at h
      cases h
      intro f hf
      cases hf
  | some t =>
      simp only [compInletSection] at h
      obtain ⟨v1, e1, h⟩ := except_bind_ok h
      obtain ⟨v2, e2, h⟩ := except_bind_ok h
      obtain ⟨v3, e3, h⟩ := except_bind_ok h
      cases h
      intro f hf
      simp only [List.mem_cons, List.mem_singleton] at hf
      rcases hf with rfl | rfl | rfl | rfl | rfl | rfl | rfl | hf
      · exact Or.inl rfl
      · exact Or.inr (Or.inl rfl)
      · exact Or.inr (Or.inr (Or.inl rfl))
      · exact Or.inr (Or.inr (Or.inr (Or.inl rfl)))
      · exact Or.inr (Or.inr (Or.inr (Or.inr (Or.inl rfl))))
      · exact Or.inr (Or.inr (Or.inr (Or.inr (Or.inr (Or.inl rfl)))))
      · exact Or.inr (Or.inr (Or.inr (Or.inr (Or.inr (Or.inr rfl)))))
      · exact absurd hf (by simp)

theorem compInletSection_some {o : Oracle} {refr : String}
    {ps ppa ts t : ℚ} {pr : Option (ℚ × ℚ) × List Field}
    (h : compInletSection o refr ps ppa ts (some t) = .ok pr) :
    pr.1 ≠ none := by
  simp only [compInletSection] at h
  obtain ⟨v1, e1, h⟩ := except_bind_ok h
  obtain ⟨v2, e2, h⟩ := except_bind_ok h
  obtain ⟨v3, e3, h⟩ := except_bind_ok h
  cases h
  simp

theorem txvSection_mem_keys {o : Oracle} {refr : String} {pd ts : ℚ}
    {tF : Option ℚ} {kT kSat kSub kH : String} {pr : Option ℚ × List Field}
    (h : txvSection o refr pd ts tF kT kSat kSub kH = .ok pr) :
    ∀ f ∈ pr.2, f.1 = kT ∨ f.1 = kSat ∨ f.1 = kSub ∨ f.1 = kH := by
  cases tF with
  | none =>
      simp only [txvSection] at h
      cases h
      intro f hf
      cases hf
  | some t =>
      simp only [txvSection] at h
      obtain ⟨v1, e1, h⟩ := except_bind_ok h
      cases h
      intro f hf
      simp only [List.mem_cons, List.mem_singleton] at hf
      rcases hf with rfl | rfl | rfl | rfl | hf
      · exact Or.inl rfl
      · exact Or.inr (Or.inl rfl)
      · exact Or.inr (Or.inr (Or.inl rfl))
      · exact Or.inr (Or.inr (Or.inr rfl))
      · exact absurd hf (by simp)

theorem alookup_append_none {α : Type} {k : String}
    {l1 l2 : List (String × α)} (h1 : alookup k l1 = none)
    (h2 : alookup k l2 = none) : alookup k (l1 ++ l2) = none := by
  rw [alookup_append, h1]
  exact h2

theorem condenserFields_alookups (pd ts : ℚ) (t3b t4a : Option ℚ) :
    alookup "Mass flow rate" (condenserFields pd ts t3b t4a) = none ∧
    alookup "Cooling cap" (condenserFields pd ts t3b t4a) = none := by
  cases t3b <;> cases t4a <;> exact ⟨rfl, rfl⟩

theorem compOutletFields_alookups (t3a rpm : Option ℚ) :
    alookup "Mass flow rate" (compOutletFields t3a rpm) = none ∧
    alookup "Cooling cap" (compOutletFields t3a rpm) = none := by
  cases t3a <;> cases rpm <;> exact ⟨rfl, rfl⟩

theorem compOutletFields_filter (t3a r1 r2 : Option ℚ) :
    (compOutletFields t3a r1).filter notSpeedDerived =
    (compOutletFields t3a r2).filter notSpeedDerived := by
  cases t3a <;> cases r1 <;> cases r2 <;> rfl

theorem massFlowSection_ok_of_some (rpm : Option ℚ) (pr : ℚ × ℚ)
    (eta disp : ℚ) (hs : List ℚ) :
    ∃ fs, massFlowSection rpm (some pr) eta disp hs = .ok fs ∧
      ∀ f ∈ fs, f.1 = "Mass flow rate" ∨ f.1 = "Cooling cap" := by
  obtain ⟨rho, hv⟩ := pr
  cases rpm with
  | none => exact ⟨[], rfl, by simp⟩
  | some r =>
      simp only [massFlowSection]
      split_ifs with h1 h2 h3 h4
      · refine ⟨_, rfl, ?_⟩
        intro f hf
        simp only [List.mem_cons, List.mem_singleton] at hf
        rcases hf with rfl | rfl | hf
        · exact Or.inl rfl
        · exact Or.inr rfl
        · exact absurd hf (by simp)
      · exact ⟨[], rfl, by simp⟩
      · exact ⟨[], rfl, by simp⟩
      · exact ⟨[], rfl, by simp⟩
      · exact ⟨[], rfl, by simp⟩

theorem filter_massFlow_keys {fs : List Field}
    (hk : ∀ f ∈ fs, f.1 = "Mass flow rate" ∨ f.1 = "Cooling cap") :
    fs.filter notSpeedDerived = [] := by
  induction fs with
  | nil => rfl
  | cons f rest ih =>
      have h1 := hk f (List.mem_cons_self _ _)
      have h2 := ih (fun g hg => hk g (List.mem_cons_of_mem _ hg))
      rcases h1 with h1 | h1 <;>
        simp [List.filter_cons, notSpeedDerived, h1, h2]

-- ===== Claim C3 =====

/-- C3 amended: for a row whose compressor-inlet temperature is mapped
and present, removing only the speed (RPM) value changes exactly the
mass-flow and cooling-capacity fields — absent from the speedless
output — and the speed echo field `Comp. rpm` (which the code stores
unconditionally, as null); every other output field is unchanged. -/
theorem c3_speed_removal_field_effect (o : Oracle)
    (sm : List (String × String)) (row row2 : Row) (eta disp : ℚ)
    (refr : String)
    (hrm : readVals sm row2 = { readVals sm row with rpm := none })
    (h2b : (readVals sm row).t_2b ≠ none) :
    (calculate_row_performance o row sm eta disp refr).filter
        notSpeedDerived =
      (calculate_row_performance o row2 sm eta disp refr).filter
        notSpeedDerived ∧
    alookup "Mass flow rate"
      (calculate_row_performance o row2 sm eta disp refr) = none ∧
    alookup "Cooling cap"
      (calculate_row_performance o row2 sm eta disp refr) = none := by
  obtain ⟨v, hv⟩ : ∃ v, readVals sm row = v := ⟨_, rfl⟩
  rw [hv] at h2b hrm
  unfold calculate_row_performance
  rw [hv, hrm]
  obtain ⟨t2, ht2⟩ : ∃ t2, v.t_2b = some t2 := by
    cases hx : v.t_2b
    · exact absurd hx h2b
    · exact ⟨_, rfl⟩
  cases hps : v.p_suc with
  | none =>
      simp [rowBody, wrapRow, hps]
      exact ⟨by rfl, by rfl⟩
  | some ps =>
  cases hpd : v.p_disch with
  | none =>
      simp [rowBody, wrapRow, hps, hpd]
      exact ⟨by rfl, by rfl⟩
  | some pdis =>
  simp only [rowBody, hps, hpd]
  cases hts : o "T" "P" (psig_to_pa ps) "Q" 0 refr with
  | error e => simp only [bind_error_simp]; exact ⟨by trivial, by rfl, by rfl⟩
  | ok tss =>
  simp only [bind_ok_simp]
  cases htd : o "T" "P" (psig_to_pa pdis) "Q" 0 refr with
  | error e => simp only [bind_error_simp]; exact ⟨by trivial, by rfl, by rfl⟩
  | ok tsd =>
  simp only [bind_ok_simp]
  cases hlh : coilSection o refr (psig_to_pa ps) tss v.t_2a_lh
      "T_2a-LH" "T_sat.lh" "S.H_lh coil" "H_coil lh" "S_coil lh"
      "D_coil lh" with
  | error e => simp only [bind_error_simp]; exact ⟨by trivial, by rfl, by rfl⟩
  | ok lh =>
  simp only [bind_ok_simp]
  cases hctr : coilSection o refr (psig_to_pa ps) tss v.t_2a_ctr
      "T_2a-ctr" "T_sat.ctr" "S.H_ctr coil" "H_coil ctr" "S_coil ctr"
      "D_coil ctr" with
  | error e => simp only [bind_error_simp]; exact ⟨by trivial, by rfl, by rfl⟩
  | ok ctr =>
  simp only [bind_ok_simp]
  cases hrh : coilSection o refr (psig_to_pa ps) tss v.t_2a_rh
      "T_2a-RH" "T_sat.rh" "S.H_rh coil" "H_coil rh" "S_coil rh"
      "D_coil rh" with
  | error e => simp only [bind_error_simp]; exact ⟨by trivial, by rfl, by rfl⟩
  | ok rh =>
  simp only [bind_ok_simp]
  rw [ht2]
  cases hci : compInletSection o refr ps (psig_to_pa ps) tss (some t2) with
  | error e => simp only [bind_error_simp]; exact ⟨by trivial, by rfl, by rfl⟩
  | ok ci =>
  simp only [bind_ok_simp]
  cases htx1 : txvSection o refr (psig_to_pa pdis) tsd v.t_4b_lh
      "TXV in-LH" "T_Saturation_txv_lh" "Subcooling_txv_lh"
      "Enthalpy_txv_lh" with
  | error e => simp only [bind_error_simp]; exact ⟨by trivial, by rfl, by rfl⟩
  | ok tx1 =>
  simp only [bind_ok_simp]
  cases htx2 : txvSection o refr (psig_to_pa pdis) tsd v.t_4b_ctr
      "TXV in-CTR" "T_Saturation_txv_ctr" "Subcooling_txv_ctr"
      "Enthalpy_txv_ctr" with
  | error e => simp only [bind_error_simp]; exact ⟨by trivial, by rfl, by rfl⟩
  | ok tx2 =>
  simp only [bind_ok_simp]
  cases htx3 : txvSection o refr (psig_to_pa pdis) tsd v.t_4b_rh
      "TXV in-RH" "T_Saturation_txv_rh" "Subcooling_txv_rh"
      "Enthalpy_txv_rh" with
  | error e => simp only [bind_error_simp]; exact ⟨by trivial, by rfl, by rfl⟩
  | ok tx3 =>
  simp only [bind_ok_simp]
  obtain ⟨prc, hprc⟩ : ∃ c, ci.1 = some c := by
    cases hx : ci.1
    · exact absurd hx (compInletSection_some hci)
    · exact ⟨_, rfl⟩
  rw [hprc]
  obtain ⟨mfl, hmfl, hmfk⟩ := massFlowSection_ok_of_some v.rpm prc eta disp
    (tx1.1.toList ++ tx2.1.toList ++ tx3.1.toList)
  rw [hmfl]
  simp only [massFlowSection, bind_ok_simp]
  have hco := compOutletFields_filter v.t_3a v.rpm none
  have hmf0 : mfl.filter notSpeedDerived = [] := filter_massFlow_keys hmfk
  have klh := coilSection_mem_keys hlh
  have kctr := coilSection_mem_keys hctr
  have krh := coilSection_mem_keys hrh
  have kci := compInletSection_mem_keys hci
  have kt1 := txvSection_mem_keys htx1
  have kt2 := txvSection_mem_keys htx2
  have kt3 := txvSection_mem_keys htx3
  have almf : alookup "Mass flow rate" lh = none :=
    alookup_none_of_keys (fun f hf => by
      rcases klh f hf with h | h | h | h | h | h <;> rw [h] <;> decide)
  have alcc : alookup "Cooling cap" lh = none :=
    alookup_none_of_keys (fun f hf => by
      rcases klh f hf with h | h | h | h | h | h <;> rw [h] <;> decide)
  have acmf : alookup "Mass flow rate" ctr = none :=
    alookup_none_of_keys (fun f hf => by
      rcases kctr f hf with h | h | h | h | h | h <;> rw [h] <;> decide)
  have accc : alookup "Cooling cap" ctr = none :=
    alookup_none_of_keys (fun f hf => by
      rcases kctr f hf with h | h | h | h | h | h <;> rw [h] <;> decide)
  have armf : alookup "Mass flow rate" rh = none :=
    alookup_none_of_keys (fun f hf => by
      rcases krh f hf with h | h | h | h | h | h <;> rw [h] <;> decide)
  have arcc : alookup "Cooling cap" rh = none :=
    alookup_none_of_keys (fun f hf => by
      rcases krh f hf with h | h | h | h | h | h <;> rw [h] <;> decide)
  have aimf : alookup "Mass flow rate" ci.2 = none :=
    alookup_none_of_keys (fun f hf => by
      rcases kci f hf with h | h | h | h | h | h | h <;> rw [h] <;> decide)
  have aicc : alookup "Cooling cap" ci.2 = none :=
    alookup_none_of_keys (fun f hf => by
      rcases kci f hf with h | h | h | h | h | h | h <;> rw [h] <;> decide)
  have at1mf : alookup "Mass flow rate" tx1.2 = none :=
    alookup_none_of_keys (fun f hf => by
      rcases kt1 f hf with h | h | h | h <;> rw [h] <;> decide)
  have at1cc : alookup "Cooling cap" tx1.2 = none :=
    alookup_none_of_keys (fun f hf => by
      rcases kt1 f hf with h | h | h | h <;> rw [h] <;> decide)
  have at2mf : alookup "Mass flow rate" tx2.2 = none :=
    alookup_none_of_keys (fun f hf => by
      rcases kt2 f hf with h | h | h | h <;> rw [h] <;> decide)
  have at2cc : alookup "Cooling cap" tx2.2 = none :=
    alookup_none_of_keys (fun f hf => by
      rcases kt2 f hf with h | h | h | h <;> rw [h] <;> decide)
  have at3mf : alookup "Mass flow rate" tx3.2 = none :=
    alookup_none_of_keys (fun f hf => by
      rcases kt3 f hf with h | h | h | h <;> rw [h] <;> decide)
  have at3cc : alookup "Cooling cap" tx3.2 = none :=
    alookup_none_of_keys (fun f hf => by
      rcases kt3 f hf with h | h | h | h <;> rw [h] <;> decide)
  have acdmf := (condenserFields_alookups pdis tsd v.t_3b v.t_4a).1
  have acdcc := (condenserFields_alookups pdis tsd v.t_3b v.t_4a).2
  have acomf := (compOutletFields_alookups v.t_3a none).1
  have acocc := (compOutletFields_alookups v.t_3a none).2
  refine ⟨?_, ?_, ?_⟩
  · show (lh ++ ctr ++ rh ++ ci.2 ++ compOutletFields v.t_3a v.rpm ++
        condenserFields pdis tsd v.t_3b v.t_4a ++ tx1.2 ++ tx2.2 ++ tx3.2 ++
        mfl).filter notSpeedDerived =
      (lh ++ ctr ++ rh ++ ci.2 ++ compOutletFields v.t_3a none ++
        condenserFields pdis tsd v.t_3b v.t_4a ++ tx1.2 ++ tx2.2 ++ tx3.2 ++
        ([] : List Field)).filter notSpeedDerived
    simp only [List.filter_append, hco, hmf0, List.filter_nil]
  · show alookup "Mass flow rate"
      (lh ++ ctr ++ rh ++ ci.2 ++ compOutletFields v.t_3a none ++
        condenserFields pdis tsd v.t_3b v.t_4a ++ tx1.2 ++ tx2.2 ++ tx3.2 ++
        ([] : List Field)) = none
    exact alookup_append_none (alookup_append_none (alookup_append_none
      (alookup_append_none (alookup_append_none (alookup_append_none
        (alookup_append_none (alookup_append_none (alookup_append_none
          almf acmf) armf) aimf) acomf) acdmf) at1mf) at2mf) at3mf) rfl
  · show alookup "Cooling cap"
      (lh ++ ctr ++ rh ++ ci.2 ++ compOutletFields v.t_3a none ++
        condenserFields pdis tsd v.t_3b v.t_4a ++ tx1.2 ++ tx2.2 ++ tx3.2 ++
        ([] : List Field)) = none
    exact alookup_append_none (alookup_append_none (alookup_append_none
      (alookup_append_none (alookup_append_none (alookup_append_none
        (alookup_append_none (alookup_append_none (alookup_append_none
          alcc accc) arcc) aicc) acocc) acdcc) at1cc) at2cc) at3cc) rfl

/-- A sensor map for the pressures, speed, compressor-inlet and one
TXV-inlet role. -/
def smC3 : List (String × String) :=
  [("P_suc", "PS"), ("P_disch", "PD"), ("RPM", "R"),
   ("T_2b", "C1"), ("T_4b-lh", "B1")]

/-- An input row complete for `smC3` (every mapped sensor present). -/
def rowC3 : Row :=
  [("PS", 10), ("PD", 250), ("R", 3000), ("C1", 50), ("B1", 95)]

/-- The same row with only the speed value removed. -/
def rowC3noRpm : Row :=
  [("PS", 10), ("PD", 250), ("C1", 50), ("B1", 95)]

/-- C3 counterexample: removing only the speed value from a complete
row also changes the `Comp. rpm` output field (from the speed value to
null), a field distinct from mass flow and cooling capacity — so not
every other field is numerically unchanged as the claim states. -/
theorem c3_counterexample_comp_rpm_changes :
    alookup "Comp. rpm"
      (calculate_row_performance (oracleConst 1) rowC3 smC3 1 1 "R290")
      = some (Val.num 3000) ∧
    alookup "Comp. rpm"
      (calculate_row_performance (oracleConst 1) rowC3noRpm smC3 1 1
        "R290") = some Val.null ∧
    Val.num 3000 ≠ Val.null ∧
    ("Comp. rpm" : String) ≠ "Mass flow rate" ∧
    ("Comp. rpm" : String) ≠ "Cooling cap" ∧
    alookup "Mass flow rate"
      (calculate_row_performance (oracleConst 1) rowC3 smC3 1 1 "R290")
      = some (Val.num (1 * 1 * 1 * (3000 / 60) * 2.20462 * 3600)) ∧
    alookup "Mass flow rate"
      (calculate_row_performance (oracleConst 1) rowC3noRpm smC3 1 1
        "R290") = none :=
  ⟨by rfl, by rfl, by decide, by decide, by decide, by rfl, by rfl⟩

/-- Witness for C3 amended, at the concrete complete row. -/
theorem c3_speed_removal_field_effect_witness :
    (calculate_row_performance (oracleConst 1) rowC3 smC3 1 1
        "R290").filter notSpeedDerived =
      (calculate_row_performance (oracleConst 1) rowC3noRpm smC3 1 1
        "R290").filter notSpeedDerived ∧
    alookup "Mass flow rate"
      (calculate_row_performance (oracleConst 1) rowC3noRpm smC3 1 1
        "R290") = none ∧
    alookup "Cooling cap"
      (calculate_row_performance (oracleConst 1) rowC3noRpm smC3 1 1
        "R290") = none :=
  c3_speed_removal_field_effect (oracleConst 1) smC3 rowC3 rowC3noRpm
    1 1 "R290" (by rfl) (by decide)

end DDT
